import Mathlib

/-!
# Verification of the `mysh` shell parser/pipeline builder (src/mysh.c)

This file embeds the core of `mysh.c` — the single-pass tokenizer /
pipeline builder `parse_input_and_exec` and the launcher functions it
calls — as a pure state machine over token lists.

Modelling conventions:
* `strtok(input, " ")` is modelled by `tokenize`: split on spaces,
  dropping empty tokens.
* The side effects of the launchers (pipe creation, fork, dup2, close,
  open, wait) are recorded as an `Event` trace.  Pipe endpoint pairs
  are identified by a counter (`nextPipe`); each `pipe()` call yields a
  fresh identifier.  A forked child is recorded as a `Child` value
  capturing its argument vector, where its stdin/stdout were dup2'ed
  from/to, the files it opens, and the pipe ends it closes.
* File-system `open` calls are assumed to succeed (the C code's
  `perror` paths for failing system calls are runtime behaviour outside
  the parser).  The open *flags* are modelled exactly.
* The fixed C arrays `command[MAX_ARGS + 1]` and
  `redirect_cmd[MAX_ARGS + 1]` are modelled as lists; `cmd_index`
  corresponds to `command.length`.  `command[0] == NULL` corresponds to
  `command = []`.  The in-bounds discipline of the C arrays is the
  subject of claim C10 and is proved as a length invariant.
-/

namespace Mysh

/-- `#define MAX_ARGS 10` (mysh.c line 24). -/
def MAX_ARGS : Nat := 10

/-- The `redirect_mode` values `REG_CMD`, `INPUT`, `OUTPUT`,
`OUTPUT_APPEND`, `PIPE` (mysh.c lines 28-32). -/
inductive Mode
  | regCmd
  | input
  | output
  | outputAppend
  | pipe
deriving DecidableEq, Repr

/-- One end of a pipe endpoint pair: read end (`pipe_fds[0]`) or write
end (`pipe_fds[1]`). -/
inductive PEnd
  | r
  | w
deriving DecidableEq, Repr

/-- The open flags used at the `open()` call sites of mysh.c:
`O_RDONLY`, `O_WRONLY|O_CREAT`, `O_WRONLY|O_CREAT|O_TRUNC`,
`O_WRONLY|O_CREAT|O_APPEND`. -/
inductive OpenMode
  | readOnly
  | writeCreate
  | writeCreateTrunc
  | writeCreateAppend
deriving DecidableEq, Repr

/-- Where a child's stdin was dup2'ed from. -/
inductive StdSrc
  | inherited
  | fromPipe (p : Nat)
  | fromFile (f : String)
deriving DecidableEq, Repr

/-- Where a child's stdout was dup2'ed to. -/
inductive StdDst
  | inherited
  | toPipe (p : Nat)
  | toFile (f : String) (m : OpenMode)
deriving DecidableEq, Repr

/-- A forked child process: its argument vector (for `execvp`), the
files it opens itself (with the open mode used), the provenance of its
standard streams after the `dup2` calls, the pipe ends it closes
(by original descriptor, i.e. `(pipe id, end)`), and the file
descriptors it closes that refer to opened files. -/
structure Child where
  argv : List String
  opens : List (String × OpenMode)
  stdinFrom : StdSrc
  stdoutTo : StdDst
  closesPipe : List (Nat × PEnd)
  closesFile : List String
deriving DecidableEq, Repr

/-- The observable actions of the parent while processing one line. -/
inductive Event
  | pipeCreate (p : Nat)
  | parentClosePipe (p : Nat) (e : PEnd)
  | parentOpen (f : String) (m : OpenMode)
  | parentCloseFile (f : String)
  | spawn (c : Child)
  | parentWait
deriving DecidableEq, Repr

/-- The two ends of the pipe endpoint pair `p`, in array order
`pipe_fds[0]`, `pipe_fds[1]`. -/
def pipeEnds (p : Nat) : List (Nat × PEnd) := [(p, PEnd.r), (p, PEnd.w)]

/-- The output-flag ternary
`(output_mode == OUTPUT_APPEND) ? (flags | O_APPEND) : (flags | O_TRUNC)`
on a base of `O_WRONLY | O_CREAT`, computed identically in
`exec_redir_bothio` (mysh.c line 514) and `output_pipe_redirect`
(line 716). -/
def ternary_output_flags (output_mode : Mode) : OpenMode :=
  if output_mode = Mode.outputAppend then OpenMode.writeCreateAppend
  else OpenMode.writeCreateTrunc

/-- The flag computation of `redirect_io` (mysh.c lines 457-475):
base `O_WRONLY|O_CREAT`, replaced by `O_RDONLY` for `INPUT`, or
extended with `O_TRUNC` / `O_APPEND` for the two output modes. -/
def redirect_flags (mode : Mode) : OpenMode :=
  if mode = Mode.input then OpenMode.readOnly
  else if mode = Mode.output then OpenMode.writeCreateTrunc
  else if mode = Mode.outputAppend then OpenMode.writeCreateAppend
  else OpenMode.writeCreate

/-- Events of `exec_command` (mysh.c lines 399-445): fork one child; if
`mode` is not `REG_CMD` the child dup2s the already-open descriptor
`io_file_fd` (here described by the path and open mode it was opened
with) onto stdin (INPUT) or stdout (OUTPUT/OUTPUT_APPEND) and closes
it; the child then execs; the parent waits. -/
def exec_command_events (mode : Mode) (command : List String)
    (io_file : Option (String × OpenMode)) : List Event :=
  [Event.spawn
    { argv := command
    , opens := []
    , stdinFrom :=
        match mode, io_file with
        | Mode.input, some (f, _) => StdSrc.fromFile f
        | _, _ => StdSrc.inherited
    , stdoutTo :=
        match mode, io_file with
        | Mode.output, some (f, m) => StdDst.toFile f m
        | Mode.outputAppend, some (f, m) => StdDst.toFile f m
        | _, _ => StdDst.inherited
    , closesPipe := []
    , closesFile :=
        match mode, io_file with
        | Mode.regCmd, _ => []
        | _, some (f, _) => [f]
        | _, none => [] },
   Event.parentWait]

/-- Events of `redirect_io` (mysh.c lines 455-491): early return when
`mode == INPUT && !exec_redirection`; otherwise the parent opens
`io_file` with `redirect_flags mode`, runs `exec_command` with the open
descriptor when `exec_redirection` is set, and closes the descriptor. -/
def redirect_events (mode : Mode) (command : List String) (io_file : String)
    (exec_redirection : Bool) : List Event :=
  if mode = Mode.input ∧ exec_redirection = false then []
  else
    [Event.parentOpen io_file (redirect_flags mode)]
      ++ (if exec_redirection then
            exec_command_events mode command (some (io_file, redirect_flags mode))
          else [])
      ++ [Event.parentCloseFile io_file]

/-- Events of `exec_redir_bothio` (mysh.c lines 501-547): fork one
child; the child opens the input file read-only and the output file
with the ternary output flags, dup2s both onto stdin/stdout, closes
both original descriptors, and execs; the parent waits. -/
def exec_redir_bothio_events (output_mode : Mode) (command : List String)
    (input_file output_file : String) : List Event :=
  [Event.spawn
    { argv := command
    , opens := [(input_file, OpenMode.readOnly),
                (output_file, ternary_output_flags output_mode)]
    , stdinFrom := StdSrc.fromFile input_file
    , stdoutTo := StdDst.toFile output_file (ternary_output_flags output_mode)
    , closesPipe := []
    , closesFile := [input_file, output_file] },
   Event.parentWait]

/-- Events of `input_pipe` (mysh.c lines 551-580): create pipe `p`,
fork; the child dup2s the write end onto stdout, closes both ends
(`close_pipes`), and execs; the parent waits (and does *not* close the
pair — the next stage still needs it). -/
def input_pipe_events (p : Nat) (pipe_cmd : List String) : List Event :=
  [Event.pipeCreate p,
   Event.spawn
    { argv := pipe_cmd
    , opens := []
    , stdinFrom := StdSrc.inherited
    , stdoutTo := StdDst.toPipe p
    , closesPipe := pipeEnds p
    , closesFile := [] },
   Event.parentWait]

/-- Events of `inter_pipe` (mysh.c lines 584-625): save the previous
pair `old`, create a new pair `new`, fork; the child dup2s
`old`'s read end onto stdin and `new`'s write end onto stdout, closes
all four original descriptors, and execs; the parent closes the
previous pair (both ends) and waits. -/
def inter_pipe_events (old new : Nat) (pipe_cmd : List String) : List Event :=
  [Event.pipeCreate new,
   Event.spawn
    { argv := pipe_cmd
    , opens := []
    , stdinFrom := StdSrc.fromPipe old
    , stdoutTo := StdDst.toPipe new
    , closesPipe := pipeEnds old ++ pipeEnds new
    , closesFile := [] },
   Event.parentClosePipe old PEnd.r,
   Event.parentClosePipe old PEnd.w,
   Event.parentWait]

/-- Events of `output_pipe` (mysh.c lines 629-654): fork; the child
dup2s the pair's read end onto stdin, closes both ends, and execs; the
parent closes the pair (both ends) and waits. -/
def output_pipe_events (p : Nat) (pipe_cmd : List String) : List Event :=
  [Event.spawn
    { argv := pipe_cmd
    , opens := []
    , stdinFrom := StdSrc.fromPipe p
    , stdoutTo := StdDst.inherited
    , closesPipe := pipeEnds p
    , closesFile := [] },
   Event.parentClosePipe p PEnd.r,
   Event.parentClosePipe p PEnd.w,
   Event.parentWait]

/-- Events of `input_pipe_redirect` (mysh.c lines 659-697): create pipe
`p`, fork; the child opens `input_file` read-only, dup2s it onto stdin
and the write end onto stdout, closes both pipe ends (the input file
descriptor is *not* closed in the C code), and execs; the parent
waits. -/
def input_pipe_redirect_events (p : Nat) (input_cmd : List String)
    (input_file : String) : List Event :=
  [Event.pipeCreate p,
   Event.spawn
    { argv := input_cmd
    , opens := [(input_file, OpenMode.readOnly)]
    , stdinFrom := StdSrc.fromFile input_file
    , stdoutTo := StdDst.toPipe p
    , closesPipe := pipeEnds p
    , closesFile := [] },
   Event.parentWait]

/-- Events of `output_pipe_redirect` (mysh.c lines 702-744): fork; the
child opens `output_file` with the ternary output flags, dup2s the
pair's read end onto stdin and the file onto stdout, closes both pipe
ends and execs (the `close(output_fd)` after `execvp` is dead code);
the parent closes the pair (both ends) and waits. -/
def output_pipe_redirect_events (p : Nat) (output_mode : Mode)
    (output_cmd : List String) (output_file : String) : List Event :=
  [Event.spawn
    { argv := output_cmd
    , opens := [(output_file, ternary_output_flags output_mode)]
    , stdinFrom := StdSrc.fromPipe p
    , stdoutTo := StdDst.toFile output_file (ternary_output_flags output_mode)
    , closesPipe := pipeEnds p
    , closesFile := [] },
   Event.parentClosePipe p PEnd.r,
   Event.parentClosePipe p PEnd.w,
   Event.parentWait]

/-- The scanner state of `parse_input_and_exec` (mysh.c lines 220-227):
`command` (with `cmd_index = command.length`), `redirect_cmd`,
`input_file`, `output_before_pipe`, `redirect_mode`, and the live
`pipe_fds` pair abstracted as `livePipe` (the identifier of the most
recently created pipe, `none` before any `pipe()` call); `nextPipe`
counts `pipe()` calls; `events` is the trace so far. -/
structure PState where
  command : List String
  redirect_cmd : List String
  input_file : Option String
  output_before_pipe : Bool
  redirect_mode : Mode
  livePipe : Option Nat
  nextPipe : Nat
  events : List Event
deriving DecidableEq, Repr

/-- Initial scanner state (mysh.c lines 220-227). -/
def initState : PState :=
  { command := []
  , redirect_cmd := []
  , input_file := none
  , output_before_pipe := false
  , redirect_mode := Mode.regCmd
  , livePipe := none
  , nextPipe := 0
  , events := [] }

/-- Result of one loop iteration on a token: either the updated state,
or a parse error (`printf` message + `return EXEC_FAILURE`) carrying
the events already performed. -/
inductive StepRes
  | ok (s : PState)
  | err (msg : String) (events : List Event)
deriving DecidableEq, Repr

def tokLT : String := "<"
def tokGT : String := ">"
def tokGTGT : String := ">>"
def tokBar : String := "|"

def msgRedirBeforeInput : String := "Cannot perform redirection before input.\n"
def msgNoFileInput : String := "No file for input redirection."
def msgNoFileOutput : String := "No file for output redirection."
def msgOutputBeforePiping : String := "Cannot perform output operation before piping."
def msgMissingProgram : String := "Missing program to pipe to.\n"
def msgTooManyArgs : String := "Too many args.\n"
def msgNoFileIO : String := "No file for I/O redirection.\n"

/-- One iteration of the scan loop of `parse_input_and_exec` on a
non-NULL token (mysh.c lines 245-334), excluding the leading
`cmd_index >= MAX_ARGS + 1` check, which lives in `runTokens`.
`save_command dest command cmd_index` (lines 379-387) copies the
current vector and empties it; in the list model it is the simultaneous
update `redirect_cmd := command, command := []`.
In the `|`/`INPUT` branch the C code passes `command[0]` (a NULL
pointer when no token was collected) to `input_pipe_redirect` without
a check; this is modelled by `headD ""`. -/
def stepToken (s : PState) (token : String) : StepRes :=
  if token = tokLT then
    if s.redirect_mode ≠ Mode.regCmd then
      StepRes.err msgRedirBeforeInput s.events
    else
      StepRes.ok { s with
        redirect_cmd := s.command
        command := []
        redirect_mode := Mode.input }
  else if token = tokGT ∨ token = tokGTGT then
    let output_mode := if token = tokGTGT then Mode.outputAppend else Mode.output
    if s.redirect_mode = Mode.input then
      if s.command = [] then
        StepRes.err msgNoFileInput s.events
      else
        StepRes.ok { s with
          input_file := some (s.command.headD "")
          command := []
          redirect_mode := output_mode }
    else if s.redirect_mode = Mode.output ∨ s.redirect_mode = Mode.outputAppend then
      if s.command = [] then
        StepRes.err msgNoFileOutput s.events
      else
        StepRes.ok { s with
          events := s.events ++
            redirect_events s.redirect_mode [] (s.command.headD "") false
          command := []
          redirect_mode := output_mode }
    else
      StepRes.ok { s with
        output_before_pipe :=
          if s.redirect_mode = Mode.pipe then true else s.output_before_pipe
        redirect_cmd := s.command
        command := []
        redirect_mode := output_mode }
  else if token = tokBar then
    if s.redirect_mode = Mode.output ∨ s.redirect_mode = Mode.outputAppend then
      StepRes.err msgOutputBeforePiping s.events
    else if s.redirect_mode = Mode.pipe then
      if s.command = [] then
        StepRes.err msgMissingProgram s.events
      else
        StepRes.ok { s with
          events := s.events ++
            inter_pipe_events (s.livePipe.getD 0) s.nextPipe s.command
          livePipe := some s.nextPipe
          nextPipe := s.nextPipe + 1
          command := []
          redirect_mode := Mode.pipe }
    else if s.redirect_mode = Mode.input then
      StepRes.ok { s with
        events := s.events ++
          input_pipe_redirect_events s.nextPipe s.redirect_cmd (s.command.headD "")
        livePipe := some s.nextPipe
        nextPipe := s.nextPipe + 1
        command := []
        redirect_mode := Mode.pipe }
    else
      StepRes.ok { s with
        events := s.events ++ input_pipe_events s.nextPipe s.command
        livePipe := some s.nextPipe
        nextPipe := s.nextPipe + 1
        command := []
        redirect_mode := Mode.pipe }
  else
    StepRes.ok { s with command := s.command ++ [token] }

/-- Outcome of `parse_input_and_exec`: `EXEC_SUCCESS` or
`EXEC_FAILURE` (with the `printf`'ed message), carrying the event
trace. -/
inductive ParseOutcome
  | success (events : List Event)
  | failure (msg : String) (events : List Event)
deriving DecidableEq, Repr

/-- The end-of-line resolution of `parse_input_and_exec` (mysh.c lines
337-371): dispatch on the redirect mode at scan completion. -/
def finishLine (s : PState) : ParseOutcome :=
  if s.redirect_mode = Mode.regCmd then
    ParseOutcome.success (s.events ++ exec_command_events Mode.regCmd s.command none)
  else if s.command = [] then
    ParseOutcome.failure msgNoFileIO s.events
  else if s.redirect_mode = Mode.input then
    ParseOutcome.success (s.events ++
      redirect_events Mode.input s.redirect_cmd (s.command.headD "") true)
  else if s.redirect_mode = Mode.output ∨ s.redirect_mode = Mode.outputAppend then
    match s.input_file with
    | some f =>
        ParseOutcome.success (s.events ++
          exec_redir_bothio_events s.redirect_mode s.redirect_cmd f (s.command.headD ""))
    | none =>
        if s.output_before_pipe then
          ParseOutcome.success (s.events ++
            output_pipe_redirect_events (s.livePipe.getD 0) s.redirect_mode
              s.redirect_cmd (s.command.headD ""))
        else
          ParseOutcome.success (s.events ++
            redirect_events s.redirect_mode s.redirect_cmd (s.command.headD "") true)
  else
    ParseOutcome.success (s.events ++ output_pipe_events (s.livePipe.getD 0) s.command)

/-- The scan loop of `parse_input_and_exec` (mysh.c lines 229-335) over
the token list: at the top of each iteration the
`cmd_index >= MAX_ARGS + 1` check runs (including the final iteration
in which `token == NULL`); then the token is consumed, and at the end
of the string `finishLine` resolves the line.  The C loop bound
`i < MAX_INPUT` never binds, because a line shorter than `MAX_INPUT`
bytes yields fewer than `MAX_INPUT` tokens. -/
def runTokens (toks : List String) (s : PState) : ParseOutcome :=
  if s.command.length ≥ MAX_ARGS + 1 then
    ParseOutcome.failure msgTooManyArgs s.events
  else
    match toks with
    | [] => finishLine s
    | t :: rest =>
      match stepToken s t with
      | StepRes.ok s' => runTokens rest s'
      | StepRes.err msg ev => ParseOutcome.failure msg ev

/-- `strtok(input, " ")` repeatedly: split the line at spaces into its
whitespace-delimited tokens; runs of the delimiter produce no empty
tokens (as with `strtok`).  Structural recursion over the characters,
accumulating the current token in reverse. -/
def tokenizeAux : List Char → List Char → List String
  | [], acc => if acc = [] then [] else [String.mk acc.reverse]
  | c :: rest, acc =>
    if c = ' ' then
      (if acc = [] then [] else [String.mk acc.reverse]) ++ tokenizeAux rest []
    else tokenizeAux rest (c :: acc)

/-- The whitespace-delimited token list of a line. -/
def tokenize (input : String) : List String := tokenizeAux input.toList []

/-- `parse_input_and_exec(input, " ")` (mysh.c lines 218-372). -/
def parse_input_and_exec (input : String) : ParseOutcome :=
  runTokens (tokenize input) initState

/-! ## Trace accounting

Descriptor bookkeeping over event traces: how often each pipe end is
created and closed by the parent, which ends are open in the parent at
each point of the trace, and whether each spawned child closes exactly
the pipe ends it inherits. -/

/-- Number of `pipe()` creations of pair `p` in a trace. -/
def createCount (ev : List Event) (p : Nat) : Nat :=
  ev.countP (fun e =>
    match e with
    | Event.pipeCreate q => decide (q = p)
    | _ => false)

/-- Number of times the parent closes end `en` of pair `p` in a trace. -/
def parentCloseCount (ev : List Event) (p : Nat) (en : PEnd) : Nat :=
  ev.countP (fun e =>
    match e with
    | Event.parentClosePipe q e2 => decide (q = p) && decide (e2 = en)
    | _ => false)

/-- Number of children forked in a trace. -/
def spawnCount (ev : List Event) : Nat :=
  ev.countP (fun e =>
    match e with
    | Event.spawn _ => true
    | _ => false)

/-- Number of occurrences of the pipe end `pe` in a list of ends. -/
def countPE (l : List (Nat × PEnd)) (pe : Nat × PEnd) : Nat :=
  l.countP (fun x => decide (x = pe))

/-- A child's `close` calls match the pipe ends it inherited: each
inherited end is closed exactly as often as it is open (once), and the
child closes no end it does not hold. -/
def childClosesMatch (closes opened : List (Nat × PEnd)) : Bool :=
  opened.all (fun pe => countPE closes pe == countPE opened pe) &&
  closes.all (fun pe => countPE closes pe == countPE opened pe)

/-- Remove one occurrence of a pipe end (a `close` by the parent). -/
def closeOne (pe : Nat × PEnd) : List (Nat × PEnd) → List (Nat × PEnd)
  | [] => []
  | x :: rest => if x = pe then rest else x :: closeOne pe rest

/-- The pipe ends open in the parent after a trace, starting from
`opened`. -/
def openAfter (opened : List (Nat × PEnd)) : List Event → List (Nat × PEnd)
  | [] => opened
  | Event.pipeCreate p :: rest => openAfter (opened ++ pipeEnds p) rest
  | Event.parentClosePipe p en :: rest => openAfter (closeOne (p, en) opened) rest
  | _ :: rest => openAfter opened rest

/-- Walk a trace keeping the multiset of pipe ends open in the parent;
at each `spawn`, check that the child closes exactly the ends it
inherits (one `close` per open end, nothing else). -/
def spawnsOKFrom (opened : List (Nat × PEnd)) : List Event → Bool
  | [] => true
  | Event.pipeCreate p :: rest => spawnsOKFrom (opened ++ pipeEnds p) rest
  | Event.parentClosePipe p en :: rest => spawnsOKFrom (closeOne (p, en) opened) rest
  | Event.spawn c :: rest =>
      childClosesMatch c.closesPipe opened && spawnsOKFrom opened rest
  | _ :: rest => spawnsOKFrom opened rest

/-- The pipe ends of the live `pipe_fds` pair (none before any
`pipe()` call). -/
def liveEnds (s : PState) : List (Nat × PEnd) :=
  match s.livePipe with
  | none => []
  | some p => pipeEnds p

/-- The scan invariant of `parse_input_and_exec`. -/
def Inv (s : PState) : Prop :=
  (s.livePipe = if s.nextPipe = 0 then none else some (s.nextPipe - 1)) ∧
  (∀ p, createCount s.events p = if p < s.nextPipe then 1 else 0) ∧
  (∀ p en, parentCloseCount s.events p en = if p + 1 < s.nextPipe then 1 else 0) ∧
  openAfter [] s.events = liveEnds s ∧
  spawnsOKFrom [] s.events = true ∧
  (s.nextPipe ≠ 0 → s.redirect_mode = Mode.pipe ∨
     ((s.redirect_mode = Mode.output ∨ s.redirect_mode = Mode.outputAppend) ∧
       s.output_before_pipe = true)) ∧
  (s.input_file ≠ none →
     (s.redirect_mode = Mode.output ∨ s.redirect_mode = Mode.outputAppend) ∧
       s.nextPipe = 0) ∧
  (s.output_before_pipe = true → s.nextPipe ≠ 0) ∧
  (s.redirect_mode = Mode.pipe → s.nextPipe ≠ 0)

/-- The descriptor discipline of a line that completed without a parse
error: some number `n` of pipe pairs was created (ids `0..n-1`, once
each), the parent closed each end of each created pair exactly once,
no pipe end remains open in the parent, and every forked child closed
exactly the pipe ends it inherited. -/
def FinalOK (ev : List Event) : Prop :=
  ∃ n, (∀ p, createCount ev p = if p < n then 1 else 0) ∧
       (∀ p en, parentCloseCount ev p en = if p < n then 1 else 0) ∧
       openAfter [] ev = [] ∧
       spawnsOKFrom [] ev = true

/-- A token that is none of the four operator tokens. -/
def isPlain (t : String) : Prop :=
  t ≠ tokLT ∧ t ≠ tokGT ∧ t ≠ tokGTGT ∧ t ≠ tokBar

instance (t : String) : Decidable (isPlain t) := by
  unfold isPlain
  infer_instance

/-- The scanner states at the top of each loop iteration of
`parse_input_and_exec` — exactly the points where the C code runs the
`cmd_index >= MAX_ARGS + 1` check before any further write into the
`command` / `redirect_cmd` arrays. -/
def scanReach (toks : List String) (s : PState) : List PState :=
  s ::
    (if s.command.length ≥ MAX_ARGS + 1 then []
     else
       match toks with
       | [] => []
       | t :: rest =>
         match stepToken s t with
         | StepRes.ok s2 => scanReach rest s2
         | StepRes.err _ _ => [])

/-- Modelled from POSIX `open(2)`/`write(2)` semantics for the flag
combinations the shell uses (the kernel side of redirection, not part
of mysh.c): the content of a file — as the list of chunks ever written
to it — after one run of a command that opens it with mode `m` and
writes `out`.  `O_TRUNC` discards the previous content; `O_APPEND`
keeps it and places the new output after it. -/
def fileAfterRun (content : List String) (m : OpenMode) (out : String) : List String :=
  match m with
  | OpenMode.writeCreateTrunc => [out]
  | OpenMode.writeCreateAppend => content ++ [out]
  | _ => content

/-- The event trace of the line `| cmd`. -/
def pipeNoProgramTrace : List Event :=
  [Event.pipeCreate 0,
   Event.spawn
     { argv := []
     , opens := []
     , stdinFrom := StdSrc.inherited
     , stdoutTo := StdDst.toPipe 0
     , closesPipe := pipeEnds 0
     , closesFile := [] },
   Event.parentWait,
   Event.spawn
     { argv := ["cmd"]
     , opens := []
     , stdinFrom := StdSrc.fromPipe 0
     , stdoutTo := StdDst.inherited
     , closesPipe := pipeEnds 0
     , closesFile := [] },
   Event.parentClosePipe 0 PEnd.r,
   Event.parentClosePipe 0 PEnd.w,
   Event.parentWait]

/-- The event trace of the (aborted) line `a |`. -/
def pipeLeakTrace : List Event := input_pipe_events 0 ["a"]

/-- The event trace of the line `a | b`. -/
def abTrace : List Event :=
  [Event.pipeCreate 0,
   Event.spawn
     { argv := ["a"]
     , opens := []
     , stdinFrom := StdSrc.inherited
     , stdoutTo := StdDst.toPipe 0
     , closesPipe := pipeEnds 0
     , closesFile := [] },
   Event.parentWait,
   Event.spawn
     { argv := ["b"]
     , opens := []
     , stdinFrom := StdSrc.fromPipe 0
     , stdoutTo := StdDst.inherited
     , closesPipe := pipeEnds 0
     , closesFile := [] },
   Event.parentClosePipe 0 PEnd.r,
   Event.parentClosePipe 0 PEnd.w,
   Event.parentWait]

/-- The event trace of the line `a | b | c`. -/
def abcTrace : List Event :=
  [Event.pipeCreate 0,
   Event.spawn
     { argv := ["a"]
     , opens := []
     , stdinFrom := StdSrc.inherited
     , stdoutTo := StdDst.toPipe 0
     , closesPipe := pipeEnds 0
     , closesFile := [] },
   Event.parentWait,
   Event.pipeCreate 1,
   Event.spawn
     { argv := ["b"]
     , opens := []
     , stdinFrom := StdSrc.fromPipe 0
     , stdoutTo := StdDst.toPipe 1
     , closesPipe := pipeEnds 0 ++ pipeEnds 1
     , closesFile := [] },
   Event.parentClosePipe 0 PEnd.r,
   Event.parentClosePipe 0 PEnd.w,
   Event.parentWait,
   Event.spawn
     { argv := ["c"]
     , opens := []
     , stdinFrom := StdSrc.fromPipe 1
     , stdoutTo := StdDst.inherited
     , closesPipe := pipeEnds 1
     , closesFile := [] },
   Event.parentClosePipe 1 PEnd.r,
   Event.parentClosePipe 1 PEnd.w,
   Event.parentWait]

/-- The event trace of the 12-token line `a b c d e | f g h i j k`. -/
def twelveTokenPipeTrace : List Event :=
  [Event.pipeCreate 0,
   Event.spawn
     { argv := ["a", "b", "c", "d", "e"]
     , opens := []
     , stdinFrom := StdSrc.inherited
     , stdoutTo := StdDst.toPipe 0
     , closesPipe := pipeEnds 0
     , closesFile := [] },
   Event.parentWait,
   Event.spawn
     { argv := ["f", "g", "h", "i", "j", "k"]
     , opens := []
     , stdinFrom := StdSrc.fromPipe 0
     , stdoutTo := StdDst.inherited
     , closesPipe := pipeEnds 0
     , closesFile := [] },
   Event.parentClosePipe 0 PEnd.r,
   Event.parentClosePipe 0 PEnd.w,
   Event.parentWait]

theorem createCount_append (a b : List Event) (p : Nat) :
    createCount (a ++ b) p = createCount a p + createCount b p := by
  simp [createCount, List.countP_append]

theorem parentCloseCount_append (a b : List Event) (p : Nat) (en : PEnd) :
    parentCloseCount (a ++ b) p en = parentCloseCount a p en + parentCloseCount b p en := by
  simp [parentCloseCount, List.countP_append]

theorem spawnCount_append (a b : List Event) :
    spawnCount (a ++ b) = spawnCount a + spawnCount b := by
  simp [spawnCount, List.countP_append]

theorem openAfter_append (a b : List Event) (o : List (Nat × PEnd)) :
    openAfter o (a ++ b) = openAfter (openAfter o a) b := by
  induction a generalizing o with
  | nil => rfl
  | cons e rest ih => cases e <;> simp [openAfter, ih]

theorem spawnsOKFrom_append (a b : List Event) (o : List (Nat × PEnd)) :
    spawnsOKFrom o (a ++ b) = (spawnsOKFrom o a && spawnsOKFrom (openAfter o a) b) := by
  induction a generalizing o with
  | nil => simp [spawnsOKFrom, openAfter]
  | cons e rest ih => cases e <;> simp [spawnsOKFrom, openAfter, ih, Bool.and_assoc]

theorem childClosesMatch_self (l : List (Nat × PEnd)) :
    childClosesMatch l l = true := by
  simp [childClosesMatch, List.all_eq_true]

/-! ### Per-launcher trace facts -/

theorem createCount_exec_command (m : Mode) (cmd : List String)
    (io : Option (String × OpenMode)) (q : Nat) :
    createCount (exec_command_events m cmd io) q = 0 := by
  simp [createCount, exec_command_events, List.countP_cons]

theorem createCount_redirect (m : Mode) (cmd : List String) (f : String)
    (ex : Bool) (q : Nat) :
    createCount (redirect_events m cmd f ex) q = 0 := by
  by_cases hm : m = Mode.input ∧ ex = false
  · simp [createCount, redirect_events, hm]
  · cases ex with
    | false =>
      have hm' : m ≠ Mode.input := fun h => hm ⟨h, rfl⟩
      simp [createCount, redirect_events, hm', List.countP_cons]
    | true =>
      simp [createCount, redirect_events, exec_command_events, List.countP_cons]

theorem createCount_bothio (m : Mode) (cmd : List String) (fi fo : String) (q : Nat) :
    createCount (exec_redir_bothio_events m cmd fi fo) q = 0 := by
  simp [createCount, exec_redir_bothio_events, List.countP_cons]

theorem createCount_input_pipe (p : Nat) (cmd : List String) (q : Nat) :
    createCount (input_pipe_events p cmd) q = if p = q then 1 else 0 := by
  by_cases h : p = q <;>
    simp [createCount, input_pipe_events, List.countP_cons, h]

theorem createCount_input_pipe_redirect (p : Nat) (cmd : List String) (f : String) (q : Nat) :
    createCount (input_pipe_redirect_events p cmd f) q = if p = q then 1 else 0 := by
  by_cases h : p = q <;>
    simp [createCount, input_pipe_redirect_events, List.countP_cons, h]

theorem createCount_inter_pipe (old new : Nat) (cmd : List String) (q : Nat) :
    createCount (inter_pipe_events old new cmd) q = if new = q then 1 else 0 := by
  by_cases h : new = q <;>
    simp [createCount, inter_pipe_events, List.countP_cons, h]

theorem createCount_output_pipe (p : Nat) (cmd : List String) (q : Nat) :
    createCount (output_pipe_events p cmd) q = 0 := by
  simp [createCount, output_pipe_events, List.countP_cons]

theorem createCount_output_pipe_redirect (p : Nat) (m : Mode) (cmd : List String)
    (f : String) (q : Nat) :
    createCount (output_pipe_redirect_events p m cmd f) q = 0 := by
  simp [createCount, output_pipe_redirect_events, List.countP_cons]

theorem closeCount_exec_command (m : Mode) (cmd : List String)
    (io : Option (String × OpenMode)) (q : Nat) (en : PEnd) :
    parentCloseCount (exec_command_events m cmd io) q en = 0 := by
  simp [parentCloseCount, exec_command_events, List.countP_cons]

theorem closeCount_redirect (m : Mode) (cmd : List String) (f : String)
    (ex : Bool) (q : Nat) (en : PEnd) :
    parentCloseCount (redirect_events m cmd f ex) q en = 0 := by
  by_cases hm : m = Mode.input ∧ ex = false
  · simp [parentCloseCount, redirect_events, hm]
  · cases ex with
    | false =>
      have hm' : m ≠ Mode.input := fun h => hm ⟨h, rfl⟩
      simp [parentCloseCount, redirect_events, hm', List.countP_cons]
    | true =>
      simp [parentCloseCount, redirect_events, exec_command_events, List.countP_cons]

theorem closeCount_bothio (m : Mode) (cmd : List String) (fi fo : String)
    (q : Nat) (en : PEnd) :
    parentCloseCount (exec_redir_bothio_events m cmd fi fo) q en = 0 := by
  simp [parentCloseCount, exec_redir_bothio_events, List.countP_cons]

theorem closeCount_input_pipe (p : Nat) (cmd : List String) (q : Nat) (en : PEnd) :
    parentCloseCount (input_pipe_events p cmd) q en = 0 := by
  simp [parentCloseCount, input_pipe_events, List.countP_cons]

theorem closeCount_input_pipe_redirect (p : Nat) (cmd : List String) (f : String)
    (q : Nat) (en : PEnd) :
    parentCloseCount (input_pipe_redirect_events p cmd f) q en = 0 := by
  simp [parentCloseCount, input_pipe_redirect_events, List.countP_cons]

theorem closeCount_inter_pipe (old new : Nat) (cmd : List String) (q : Nat) (en : PEnd) :
    parentCloseCount (inter_pipe_events old new cmd) q en = if old = q then 1 else 0 := by
  by_cases h : old = q <;>
    cases en <;>
    simp [parentCloseCount, inter_pipe_events, List.countP_cons, h]

theorem closeCount_output_pipe (p : Nat) (cmd : List String) (q : Nat) (en : PEnd) :
    parentCloseCount (output_pipe_events p cmd) q en = if p = q then 1 else 0 := by
  by_cases h : p = q <;>
    cases en <;>
    simp [parentCloseCount, output_pipe_events, List.countP_cons, h]

theorem closeCount_output_pipe_redirect (p : Nat) (m : Mode) (cmd : List String)
    (f : String) (q : Nat) (en : PEnd) :
    parentCloseCount (output_pipe_redirect_events p m cmd f) q en = if p = q then 1 else 0 := by
  by_cases h : p = q <;>
    cases en <;>
    simp [parentCloseCount, output_pipe_redirect_events, List.countP_cons, h]

theorem openAfter_exec_command (m : Mode) (cmd : List String)
    (io : Option (String × OpenMode)) (o : List (Nat × PEnd)) :
    openAfter o (exec_command_events m cmd io) = o := by
  simp [openAfter, exec_command_events]

theorem openAfter_redirect (m : Mode) (cmd : List String) (f : String)
    (ex : Bool) (o : List (Nat × PEnd)) :
    openAfter o (redirect_events m cmd f ex) = o := by
  by_cases hm : m = Mode.input ∧ ex = false
  · simp [openAfter, redirect_events, hm]
  · cases ex with
    | false =>
      have hm' : m ≠ Mode.input := fun h => hm ⟨h, rfl⟩
      simp [openAfter, redirect_events, hm']
    | true =>
      simp [openAfter, redirect_events, exec_command_events]

theorem openAfter_bothio (m : Mode) (cmd : List String) (fi fo : String)
    (o : List (Nat × PEnd)) :
    openAfter o (exec_redir_bothio_events m cmd fi fo) = o := by
  simp [openAfter, exec_redir_bothio_events]

theorem openAfter_input_pipe (p : Nat) (cmd : List String) (o : List (Nat × PEnd)) :
    openAfter o (input_pipe_events p cmd) = o ++ pipeEnds p := by
  simp [openAfter, input_pipe_events]

theorem openAfter_input_pipe_redirect (p : Nat) (cmd : List String) (f : String)
    (o : List (Nat × PEnd)) :
    openAfter o (input_pipe_redirect_events p cmd f) = o ++ pipeEnds p := by
  simp [openAfter, input_pipe_redirect_events]

theorem openAfter_inter_pipe (old new : Nat) (cmd : List String) :
    openAfter (pipeEnds old) (inter_pipe_events old new cmd) = pipeEnds new := by
  simp [openAfter, inter_pipe_events, pipeEnds, closeOne]

theorem openAfter_output_pipe (p : Nat) (cmd : List String) :
    openAfter (pipeEnds p) (output_pipe_events p cmd) = [] := by
  simp [openAfter, output_pipe_events, pipeEnds, closeOne]

theorem openAfter_output_pipe_redirect (p : Nat) (m : Mode) (cmd : List String)
    (f : String) :
    openAfter (pipeEnds p) (output_pipe_redirect_events p m cmd f) = [] := by
  simp [openAfter, output_pipe_redirect_events, pipeEnds, closeOne]

theorem spawnsOK_exec_command (m : Mode) (cmd : List String)
    (io : Option (String × OpenMode)) :
    spawnsOKFrom [] (exec_command_events m cmd io) = true := by
  simp [spawnsOKFrom, exec_command_events, childClosesMatch]

theorem spawnsOK_redirect (m : Mode) (cmd : List String) (f : String) (ex : Bool) :
    spawnsOKFrom [] (redirect_events m cmd f ex) = true := by
  by_cases hm : m = Mode.input ∧ ex = false
  · simp [spawnsOKFrom, redirect_events, hm]
  · cases ex with
    | false =>
      have hm' : m ≠ Mode.input := fun h => hm ⟨h, rfl⟩
      simp [spawnsOKFrom, redirect_events, hm']
    | true =>
      simp [spawnsOKFrom, redirect_events, exec_command_events, childClosesMatch]

theorem spawnsOK_bothio (m : Mode) (cmd : List String) (fi fo : String) :
    spawnsOKFrom [] (exec_redir_bothio_events m cmd fi fo) = true := by
  simp [spawnsOKFrom, exec_redir_bothio_events, childClosesMatch]

theorem spawnsOK_input_pipe (p : Nat) (cmd : List String) :
    spawnsOKFrom [] (input_pipe_events p cmd) = true := by
  simp [spawnsOKFrom, input_pipe_events, childClosesMatch_self]

theorem spawnsOK_input_pipe_redirect (p : Nat) (cmd : List String) (f : String) :
    spawnsOKFrom [] (input_pipe_redirect_events p cmd f) = true := by
  simp [spawnsOKFrom, input_pipe_redirect_events, childClosesMatch_self]

theorem spawnsOK_inter_pipe (old new : Nat) (cmd : List String) :
    spawnsOKFrom (pipeEnds old) (inter_pipe_events old new cmd) = true := by
  simp [spawnsOKFrom, inter_pipe_events, childClosesMatch_self]

theorem spawnsOK_output_pipe (p : Nat) (cmd : List String) :
    spawnsOKFrom (pipeEnds p) (output_pipe_events p cmd) = true := by
  simp [spawnsOKFrom, output_pipe_events, childClosesMatch_self]

theorem spawnsOK_output_pipe_redirect (p : Nat) (m : Mode) (cmd : List String)
    (f : String) :
    spawnsOKFrom (pipeEnds p) (output_pipe_redirect_events p m cmd f) = true := by
  simp [spawnsOKFrom, output_pipe_redirect_events, childClosesMatch_self]

/-! ## The scan invariant

At the top of each loop iteration: the live pipe pair is the most
recently created one; pairs other than the live one are fully closed
in the parent (once per end); the ends open in the parent are exactly
those of the live pair; every child forked so far closed exactly the
ends it inherited; and the mode/flag/pipe bookkeeping is consistent. -/

theorem Inv_initState : Inv initState := by
  refine ⟨rfl, ?_, ?_, rfl, rfl, ?_, ?_, ?_, ?_⟩ <;>
    simp [initState, createCount, parentCloseCount, liveEnds]

theorem spawnsOK_redirect_noexec (m : Mode) (f : String) (o : List (Nat × PEnd))
    (hm : m ≠ Mode.input) :
    spawnsOKFrom o (redirect_events m [] f false) = true := by
  simp [redirect_events, hm, spawnsOKFrom]

theorem stepToken_inv {s s' : PState} {t : String}
    (hs : Inv s) (h : stepToken s t = StepRes.ok s') : Inv s' := by
  obtain ⟨h1, h2, h3, h4, h5, h6, h7, h8, h9⟩ := hs
  unfold stepToken at h
  by_cases ht1 : t = tokLT
  · -- `<` branch
    rw [if_pos ht1] at h
    by_cases hm : s.redirect_mode = Mode.regCmd
    · rw [if_neg (not_not_intro hm)] at h
      injection h with h
      subst h
      have hn0 : s.nextPipe = 0 := by
        by_contra hn
        rcases h6 hn with hp | hp
        · rw [hm] at hp; exact Mode.noConfusion hp
        · rcases hp.1 with hp1 | hp1 <;> rw [hm] at hp1 <;> exact Mode.noConfusion hp1
      simp only [Inv]
      refine ⟨h1, h2, h3, h4, h5, ?_, ?_, ?_, ?_⟩
      · intro hn; exact absurd hn0 hn
      · intro hif
        rcases (h7 hif).1 with hp | hp <;> rw [hm] at hp <;> exact Mode.noConfusion hp
      · intro hob; exact absurd hn0 (h8 hob)
      · intro hp; exact Mode.noConfusion hp
    · rw [if_pos hm] at h
      exact StepRes.noConfusion h
  · rw [if_neg ht1] at h
    by_cases ht2 : t = tokGT ∨ t = tokGTGT
    · -- `>` / `>>` branch
      rw [if_pos ht2] at h
      by_cases hmi : s.redirect_mode = Mode.input
      · -- INPUT sub-branch: record the input file
        rw [if_pos hmi] at h
        by_cases hc : s.command = []
        · rw [if_pos hc] at h; exact StepRes.noConfusion h
        · rw [if_neg hc] at h
          injection h with h
          subst h
          have hn0 : s.nextPipe = 0 := by
            by_contra hn
            rcases h6 hn with hp | hp
            · rw [hmi] at hp; exact Mode.noConfusion hp
            · rcases hp.1 with hp1 | hp1 <;> rw [hmi] at hp1 <;> exact Mode.noConfusion hp1
          simp only [Inv]
          refine ⟨h1, h2, h3, h4, h5, ?_, ?_, ?_, ?_⟩
          · intro hn; exact absurd hn0 hn
          · intro _
            refine ⟨?_, hn0⟩
            by_cases hg : t = tokGTGT <;> simp [hg]
          · intro hob; exact absurd hn0 (h8 hob)
          · intro hp
            by_cases hg : t = tokGTGT <;> simp [hg] at hp
      · rw [if_neg hmi] at h
        by_cases hm2 : s.redirect_mode = Mode.output ∨ s.redirect_mode = Mode.outputAppend
        · -- already-output sub-branch: immediate open/close of the file
          rw [if_pos hm2] at h
          by_cases hc : s.command = []
          · rw [if_pos hc] at h; exact StepRes.noConfusion h
          · rw [if_neg hc] at h
            injection h with h
            subst h
            simp only [Inv]
            refine ⟨h1, ?_, ?_, ?_, ?_, ?_, ?_, ?_, ?_⟩
            · intro p
              rw [createCount_append, h2 p, createCount_redirect]
              omega
            · intro p en
              rw [parentCloseCount_append, h3 p en, closeCount_redirect]
              omega
            · rw [openAfter_append, h4, openAfter_redirect]
              rfl
            · rw [spawnsOKFrom_append, h5, h4, spawnsOK_redirect_noexec _ _ _ hmi]
              rfl
            · intro hn
              right
              refine ⟨?_, ?_⟩
              · by_cases hg : t = tokGTGT <;> simp [hg]
              · rcases h6 hn with hp | hp
                · rcases hm2 with hm3 | hm3 <;> rw [hm3] at hp <;> exact Mode.noConfusion hp
                · exact hp.2
            · intro hif
              refine ⟨?_, (h7 hif).2⟩
              by_cases hg : t = tokGTGT <;> simp [hg]
            · exact h8
            · intro hp
              by_cases hg : t = tokGTGT <;> simp [hg] at hp
        · -- REG_CMD or PIPE sub-branch: save the command
          rw [if_neg hm2] at h
          injection h with h
          subst h
          simp only [Inv]
          refine ⟨h1, h2, h3, h4, h5, ?_, ?_, ?_, ?_⟩
          · intro hn
            right
            refine ⟨?_, ?_⟩
            · by_cases hg : t = tokGTGT <;> simp [hg]
            · rcases h6 hn with hp | hp
              · simp [hp]
              · exact absurd hp.1 hm2
          · intro hif
            exact absurd (h7 hif).1 hm2
          · intro hob
            by_cases hp : s.redirect_mode = Mode.pipe
            · exact h9 hp
            · simp only [if_neg hp] at hob
              exact h8 hob
          · intro hp
            by_cases hg : t = tokGTGT <;> simp [hg] at hp
    · rw [if_neg ht2] at h
      by_cases ht3 : t = tokBar
      · -- `|` branch
        rw [if_pos ht3] at h
        by_cases hm2 : s.redirect_mode = Mode.output ∨ s.redirect_mode = Mode.outputAppend
        · rw [if_pos hm2] at h
          exact StepRes.noConfusion h
        · rw [if_neg hm2] at h
          by_cases hmp : s.redirect_mode = Mode.pipe
          · -- interior stage
            rw [if_pos hmp] at h
            by_cases hc : s.command = []
            · rw [if_pos hc] at h; exact StepRes.noConfusion h
            · rw [if_neg hc] at h
              injection h with h
              subst h
              have hn : s.nextPipe ≠ 0 := h9 hmp
              have hl : s.livePipe = some (s.nextPipe - 1) := by
                rw [h1, if_neg hn]
              simp only [Inv]
              refine ⟨?_, ?_, ?_, ?_, ?_, ?_, ?_, ?_, ?_⟩
              · simp
              · intro p
                rw [createCount_append, h2 p, createCount_inter_pipe]
                split_ifs <;> omega
              · intro p en
                rw [parentCloseCount_append, h3 p en, hl]
                simp only [Option.getD_some]
                rw [closeCount_inter_pipe]
                split_ifs <;> omega
              · rw [openAfter_append, h4]
                simp [liveEnds, hl, openAfter_inter_pipe]
              · rw [spawnsOKFrom_append, h5, h4]
                simp [liveEnds, hl, spawnsOK_inter_pipe]
              · intro _; left; trivial
              · intro hif
                exact absurd (h7 hif).1 hm2
              · intro _; simp
              · intro _; simp
          · rw [if_neg hmp] at h
            by_cases hmi : s.redirect_mode = Mode.input
            · -- first stage with input redirection
              rw [if_pos hmi] at h
              injection h with h
              subst h
              have hn0 : s.nextPipe = 0 := by
                by_contra hn
                rcases h6 hn with hp | hp
                · exact hmp hp
                · exact hm2 hp.1
              have hl : s.livePipe = none := by rw [h1, if_pos hn0]
              simp only [Inv]
              refine ⟨?_, ?_, ?_, ?_, ?_, ?_, ?_, ?_, ?_⟩
              · simp
              · intro p
                rw [createCount_append, h2 p, createCount_input_pipe_redirect]
                split_ifs <;> omega
              · intro p en
                rw [parentCloseCount_append, h3 p en, closeCount_input_pipe_redirect]
                split_ifs <;> omega
              · rw [openAfter_append, h4]
                simp [liveEnds, hl, openAfter_input_pipe_redirect]
              · rw [spawnsOKFrom_append, h5, h4]
                simp [liveEnds, hl, spawnsOK_input_pipe_redirect]
              · intro _; left; trivial
              · intro hif
                rcases (h7 hif).1 with hp | hp <;> rw [hmi] at hp <;> exact Mode.noConfusion hp
              · intro _; simp
              · intro _; simp
            · -- first stage, no redirection
              rw [if_neg hmi] at h
              injection h with h
              subst h
              have hn0 : s.nextPipe = 0 := by
                by_contra hn
                rcases h6 hn with hp | hp
                · exact hmp hp
                · exact hm2 hp.1
              have hl : s.livePipe = none := by rw [h1, if_pos hn0]
              simp only [Inv]
              refine ⟨?_, ?_, ?_, ?_, ?_, ?_, ?_, ?_, ?_⟩
              · simp
              · intro p
                rw [createCount_append, h2 p, createCount_input_pipe]
                split_ifs <;> omega
              · intro p en
                rw [parentCloseCount_append, h3 p en, closeCount_input_pipe]
                split_ifs <;> omega
              · rw [openAfter_append, h4]
                simp [liveEnds, hl, openAfter_input_pipe]
              · rw [spawnsOKFrom_append, h5, h4]
                simp [liveEnds, hl, spawnsOK_input_pipe]
              · intro _; left; trivial
              · intro hif
                exact absurd (h7 hif).1 hm2
              · intro _; simp
              · intro _; simp
      · -- plain token: append to the argument vector
        rw [if_neg ht3] at h
        injection h with h
        subst h
        exact ⟨h1, h2, h3, h4, h5, h6, h7, h8, h9⟩

theorem finishLine_final {s : PState} {ev : List Event}
    (hs : Inv s) (h : finishLine s = ParseOutcome.success ev) : FinalOK ev := by
  obtain ⟨h1, h2, h3, h4, h5, h6, h7, h8, h9⟩ := hs
  unfold finishLine at h
  by_cases hm : s.redirect_mode = Mode.regCmd
  · -- REG_CMD: plain exec, no pipes exist
    rw [if_pos hm] at h
    injection h with h
    subst h
    have hn0 : s.nextPipe = 0 := by
      by_contra hn
      rcases h6 hn with hp | hp
      · rw [hm] at hp; exact Mode.noConfusion hp
      · rcases hp.1 with hp1 | hp1 <;> rw [hm] at hp1 <;> exact Mode.noConfusion hp1
    have hl : s.livePipe = none := by rw [h1, if_pos hn0]
    refine ⟨0, ?_, ?_, ?_, ?_⟩
    · intro p
      rw [createCount_append, h2 p, createCount_exec_command, hn0]
      simp
    · intro p en
      rw [parentCloseCount_append, h3 p en, closeCount_exec_command, hn0]
      simp
    · rw [openAfter_append, h4, openAfter_exec_command]
      simp [liveEnds, hl]
    · rw [spawnsOKFrom_append, h5, h4]
      simp [liveEnds, hl, spawnsOK_exec_command]
  · rw [if_neg hm] at h
    by_cases hc : s.command = []
    · rw [if_pos hc] at h
      exact ParseOutcome.noConfusion h
    · rw [if_neg hc] at h
      by_cases hmi : s.redirect_mode = Mode.input
      · -- INPUT: single stage with input redirection, no pipes exist
        rw [if_pos hmi] at h
        injection h with h
        subst h
        have hn0 : s.nextPipe = 0 := by
          by_contra hn
          rcases h6 hn with hp | hp
          · rw [hmi] at hp; exact Mode.noConfusion hp
          · rcases hp.1 with hp1 | hp1 <;> rw [hmi] at hp1 <;> exact Mode.noConfusion hp1
        have hl : s.livePipe = none := by rw [h1, if_pos hn0]
        refine ⟨0, ?_, ?_, ?_, ?_⟩
        · intro p
          rw [createCount_append, h2 p, createCount_redirect, hn0]
          simp
        · intro p en
          rw [parentCloseCount_append, h3 p en, closeCount_redirect, hn0]
          simp
        · rw [openAfter_append, h4, openAfter_redirect]
          simp [liveEnds, hl]
        · rw [spawnsOKFrom_append, h5, h4]
          simp [liveEnds, hl, spawnsOK_redirect]
      · rw [if_neg hmi] at h
        by_cases hm2 : s.redirect_mode = Mode.output ∨ s.redirect_mode = Mode.outputAppend
        · rw [if_pos hm2] at h
          cases hif : s.input_file with
          | some f =>
            -- dual redirection, no pipes exist
            simp only [hif] at h
            injection h with h
            subst h
            have hn0 : s.nextPipe = 0 := (h7 (by rw [hif]; simp)).2
            have hl : s.livePipe = none := by rw [h1, if_pos hn0]
            refine ⟨0, ?_, ?_, ?_, ?_⟩
            · intro p
              rw [createCount_append, h2 p, createCount_bothio, hn0]
              simp
            · intro p en
              rw [parentCloseCount_append, h3 p en, closeCount_bothio, hn0]
              simp
            · rw [openAfter_append, h4, openAfter_bothio]
              simp [liveEnds, hl]
            · rw [spawnsOKFrom_append, h5, h4]
              simp [liveEnds, hl, spawnsOK_bothio]
          | none =>
            simp only [hif] at h
            by_cases hob : s.output_before_pipe = true
            · -- output recorded before a pipe: terminal stage closes the live pair
              rw [if_pos hob] at h
              injection h with h
              subst h
              have hn : s.nextPipe ≠ 0 := h8 hob
              have hl : s.livePipe = some (s.nextPipe - 1) := by rw [h1, if_neg hn]
              refine ⟨s.nextPipe, ?_, ?_, ?_, ?_⟩
              · intro p
                rw [createCount_append, h2 p, createCount_output_pipe_redirect]
                omega
              · intro p en
                rw [parentCloseCount_append, h3 p en, hl]
                simp only [Option.getD_some]
                rw [closeCount_output_pipe_redirect]
                split_ifs <;> omega
              · rw [openAfter_append, h4]
                simp [liveEnds, hl, openAfter_output_pipe_redirect]
              · rw [spawnsOKFrom_append, h5, h4]
                simp [liveEnds, hl, spawnsOK_output_pipe_redirect]
            · -- plain single-stage output redirection, no pipes exist
              rw [if_neg hob] at h
              injection h with h
              subst h
              have hn0 : s.nextPipe = 0 := by
                by_contra hn
                rcases h6 hn with hp | hp
                · rcases hm2 with hm3 | hm3 <;> rw [hm3] at hp <;> exact Mode.noConfusion hp
                · exact hob hp.2
              have hl : s.livePipe = none := by rw [h1, if_pos hn0]
              refine ⟨0, ?_, ?_, ?_, ?_⟩
              · intro p
                rw [createCount_append, h2 p, createCount_redirect, hn0]
                simp
              · intro p en
                rw [parentCloseCount_append, h3 p en, closeCount_redirect, hn0]
                simp
              · rw [openAfter_append, h4, openAfter_redirect]
                simp [liveEnds, hl]
              · rw [spawnsOKFrom_append, h5, h4]
                simp [liveEnds, hl, spawnsOK_redirect]
        · -- PIPE: terminal stage closes the live pair
          rw [if_neg hm2] at h
          injection h with h
          subst h
          have hmp : s.redirect_mode = Mode.pipe := by
            cases hx : s.redirect_mode with
            | regCmd => exact absurd hx hm
            | input => exact absurd hx hmi
            | output => exact absurd (Or.inl hx) hm2
            | outputAppend => exact absurd (Or.inr hx) hm2
            | pipe => rfl
          have hn : s.nextPipe ≠ 0 := h9 hmp
          have hl : s.livePipe = some (s.nextPipe - 1) := by rw [h1, if_neg hn]
          refine ⟨s.nextPipe, ?_, ?_, ?_, ?_⟩
          · intro p
            rw [createCount_append, h2 p, createCount_output_pipe]
            omega
          · intro p en
            rw [parentCloseCount_append, h3 p en, hl]
            simp only [Option.getD_some]
            rw [closeCount_output_pipe]
            split_ifs <;> omega
          · rw [openAfter_append, h4]
            simp [liveEnds, hl, openAfter_output_pipe]
          · rw [spawnsOKFrom_append, h5, h4]
            simp [liveEnds, hl, spawnsOK_output_pipe]

theorem runTokens_final {toks : List String} {s : PState} {ev : List Event}
    (hs : Inv s) (h : runTokens toks s = ParseOutcome.success ev) : FinalOK ev := by
  induction toks generalizing s with
  | nil =>
    unfold runTokens at h
    by_cases hlen : s.command.length ≥ MAX_ARGS + 1
    · rw [if_pos hlen] at h
      exact ParseOutcome.noConfusion h
    · rw [if_neg hlen] at h
      exact finishLine_final hs h
  | cons t rest ih =>
    unfold runTokens at h
    by_cases hlen : s.command.length ≥ MAX_ARGS + 1
    · rw [if_pos hlen] at h
      exact ParseOutcome.noConfusion h
    · rw [if_neg hlen] at h
      have h2 : (match stepToken s t with
          | StepRes.ok s2 => runTokens rest s2
          | StepRes.err msg e => ParseOutcome.failure msg e) =
          ParseOutcome.success ev := h
      cases hst : stepToken s t with
      | ok s2 =>
        rw [hst] at h2
        exact ih (stepToken_inv hs hst) h2
      | err m e =>
        rw [hst] at h2
        exact ParseOutcome.noConfusion h2

/-! ## Unfolding lemmas for the individual scanner transitions -/

theorem runTokens_overflow (toks : List String) (s : PState)
    (hc : s.command.length ≥ MAX_ARGS + 1) :
    runTokens toks s = ParseOutcome.failure msgTooManyArgs s.events := by
  unfold runTokens
  rw [if_pos hc]

theorem runTokens_nil (s : PState) (hc : ¬s.command.length ≥ MAX_ARGS + 1) :
    runTokens [] s = finishLine s := by
  unfold runTokens
  rw [if_neg hc]

theorem runTokens_cons (t : String) (rest : List String) (s : PState)
    (hc : ¬s.command.length ≥ MAX_ARGS + 1) :
    runTokens (t :: rest) s =
      match stepToken s t with
      | StepRes.ok s2 => runTokens rest s2
      | StepRes.err msg e => ParseOutcome.failure msg e := by
  conv_lhs => rw [runTokens]
  rw [if_neg hc]

theorem runTokens_cons_ok (t : String) (rest : List String) {s s2 : PState}
    (hlen : ¬s.command.length ≥ MAX_ARGS + 1)
    (hst : stepToken s t = StepRes.ok s2) :
    runTokens (t :: rest) s = runTokens rest s2 := by
  rw [runTokens_cons t rest s hlen, hst]

theorem stepToken_plain {t : String} (h : isPlain t) (s : PState) :
    stepToken s t = StepRes.ok { s with command := s.command ++ [t] } := by
  obtain ⟨h1, h2, h3, h4⟩ := h
  unfold stepToken
  rw [if_neg h1, if_neg (fun hor => hor.elim h2 h3), if_neg h4]

theorem stepToken_lt_err (s : PState) (hm : s.redirect_mode ≠ Mode.regCmd) :
    stepToken s tokLT = StepRes.err msgRedirBeforeInput s.events := by
  unfold stepToken
  rw [if_pos rfl, if_pos hm]

theorem stepToken_lt_ok (s : PState) (hm : s.redirect_mode = Mode.regCmd) :
    stepToken s tokLT = StepRes.ok { s with
      redirect_cmd := s.command
      command := []
      redirect_mode := Mode.input } := by
  unfold stepToken
  rw [if_pos rfl, if_neg (not_not_intro hm)]

theorem stepToken_gt_input_err (s : PState) {t : String} (ht : t = tokGT ∨ t = tokGTGT)
    (hmi : s.redirect_mode = Mode.input) (hc : s.command = []) :
    stepToken s t = StepRes.err msgNoFileInput s.events := by
  unfold stepToken
  rw [if_neg (by rcases ht with rfl | rfl <;> decide), if_pos ht, if_pos hmi, if_pos hc]

theorem stepToken_gt_input (s : PState) {t : String} (ht : t = tokGT ∨ t = tokGTGT)
    (hmi : s.redirect_mode = Mode.input) (hc : s.command ≠ []) :
    stepToken s t = StepRes.ok { s with
      input_file := some (s.command.headD "")
      command := []
      redirect_mode := if t = tokGTGT then Mode.outputAppend else Mode.output } := by
  unfold stepToken
  rw [if_neg (by rcases ht with rfl | rfl <;> decide), if_pos ht, if_pos hmi, if_neg hc]

theorem stepToken_gt_out_err (s : PState) {t : String} (ht : t = tokGT ∨ t = tokGTGT)
    (hm2 : s.redirect_mode = Mode.output ∨ s.redirect_mode = Mode.outputAppend)
    (hc : s.command = []) :
    stepToken s t = StepRes.err msgNoFileOutput s.events := by
  have hmi : ¬s.redirect_mode = Mode.input := by
    rcases hm2 with h | h <;> rw [h] <;> decide
  unfold stepToken
  rw [if_neg (by rcases ht with rfl | rfl <;> decide), if_pos ht, if_neg hmi,
    if_pos hm2, if_pos hc]

theorem stepToken_gt_out (s : PState) {t : String} (ht : t = tokGT ∨ t = tokGTGT)
    (hm2 : s.redirect_mode = Mode.output ∨ s.redirect_mode = Mode.outputAppend)
    (hc : s.command ≠ []) :
    stepToken s t = StepRes.ok { s with
      events := s.events ++ redirect_events s.redirect_mode [] (s.command.headD "") false
      command := []
      redirect_mode := if t = tokGTGT then Mode.outputAppend else Mode.output } := by
  have hmi : ¬s.redirect_mode = Mode.input := by
    rcases hm2 with h | h <;> rw [h] <;> decide
  unfold stepToken
  rw [if_neg (by rcases ht with rfl | rfl <;> decide), if_pos ht, if_neg hmi,
    if_pos hm2, if_neg hc]

theorem stepToken_gt_save (s : PState) {t : String} (ht : t = tokGT ∨ t = tokGTGT)
    (hmo : s.redirect_mode = Mode.regCmd ∨ s.redirect_mode = Mode.pipe) :
    stepToken s t = StepRes.ok { s with
      output_before_pipe :=
        if s.redirect_mode = Mode.pipe then true else s.output_before_pipe
      redirect_cmd := s.command
      command := []
      redirect_mode := if t = tokGTGT then Mode.outputAppend else Mode.output } := by
  have hmi : ¬s.redirect_mode = Mode.input := by
    rcases hmo with h | h <;> rw [h] <;> decide
  have hm2 : ¬(s.redirect_mode = Mode.output ∨ s.redirect_mode = Mode.outputAppend) := by
    rcases hmo with h | h <;> rw [h] <;> decide
  unfold stepToken
  rw [if_neg (by rcases ht with rfl | rfl <;> decide), if_pos ht, if_neg hmi, if_neg hm2]

theorem stepToken_bar_out (s : PState)
    (hm2 : s.redirect_mode = Mode.output ∨ s.redirect_mode = Mode.outputAppend) :
    stepToken s tokBar = StepRes.err msgOutputBeforePiping s.events := by
  unfold stepToken
  rw [if_neg (by decide), if_neg (by decide), if_pos rfl, if_pos hm2]

theorem stepToken_bar_missing (s : PState) (hmp : s.redirect_mode = Mode.pipe)
    (hc : s.command = []) :
    stepToken s tokBar = StepRes.err msgMissingProgram s.events := by
  have hm2 : ¬(s.redirect_mode = Mode.output ∨ s.redirect_mode = Mode.outputAppend) := by
    rw [hmp]; decide
  unfold stepToken
  rw [if_neg (by decide), if_neg (by decide), if_pos rfl, if_neg hm2, if_pos hmp, if_pos hc]

theorem stepToken_bar_inter (s : PState) (hmp : s.redirect_mode = Mode.pipe)
    (hc : s.command ≠ []) :
    stepToken s tokBar = StepRes.ok { s with
      events := s.events ++ inter_pipe_events (s.livePipe.getD 0) s.nextPipe s.command
      livePipe := some s.nextPipe
      nextPipe := s.nextPipe + 1
      command := []
      redirect_mode := Mode.pipe } := by
  have hm2 : ¬(s.redirect_mode = Mode.output ∨ s.redirect_mode = Mode.outputAppend) := by
    rw [hmp]; decide
  unfold stepToken
  rw [if_neg (by decide), if_neg (by decide), if_pos rfl, if_neg hm2, if_pos hmp, if_neg hc]

theorem stepToken_bar_inputRedirect (s : PState) (hmi : s.redirect_mode = Mode.input) :
    stepToken s tokBar = StepRes.ok { s with
      events := s.events ++
        input_pipe_redirect_events s.nextPipe s.redirect_cmd (s.command.headD "")
      livePipe := some s.nextPipe
      nextPipe := s.nextPipe + 1
      command := []
      redirect_mode := Mode.pipe } := by
  have hm2 : ¬(s.redirect_mode = Mode.output ∨ s.redirect_mode = Mode.outputAppend) := by
    rw [hmi]; decide
  have hmp : ¬s.redirect_mode = Mode.pipe := by rw [hmi]; decide
  unfold stepToken
  rw [if_neg (by decide), if_neg (by decide), if_pos rfl, if_neg hm2, if_neg hmp, if_pos hmi]

theorem stepToken_bar_first (s : PState) (hm : s.redirect_mode = Mode.regCmd) :
    stepToken s tokBar = StepRes.ok { s with
      events := s.events ++ input_pipe_events s.nextPipe s.command
      livePipe := some s.nextPipe
      nextPipe := s.nextPipe + 1
      command := []
      redirect_mode := Mode.pipe } := by
  have hm2 : ¬(s.redirect_mode = Mode.output ∨ s.redirect_mode = Mode.outputAppend) := by
    rw [hm]; decide
  have hmp : ¬s.redirect_mode = Mode.pipe := by rw [hm]; decide
  have hmi : ¬s.redirect_mode = Mode.input := by rw [hm]; decide
  unfold stepToken
  rw [if_neg (by decide), if_neg (by decide), if_pos rfl, if_neg hm2, if_neg hmp, if_neg hmi]

theorem finishLine_reg (s : PState) (hm : s.redirect_mode = Mode.regCmd) :
    finishLine s =
      ParseOutcome.success (s.events ++ exec_command_events Mode.regCmd s.command none) := by
  unfold finishLine
  rw [if_pos hm]

theorem finishLine_empty (s : PState) (hm : s.redirect_mode ≠ Mode.regCmd)
    (hc : s.command = []) :
    finishLine s = ParseOutcome.failure msgNoFileIO s.events := by
  unfold finishLine
  rw [if_neg hm, if_pos hc]

theorem finishLine_input (s : PState) (hmi : s.redirect_mode = Mode.input)
    (hc : s.command ≠ []) :
    finishLine s = ParseOutcome.success (s.events ++
      redirect_events Mode.input s.redirect_cmd (s.command.headD "") true) := by
  have hm : s.redirect_mode ≠ Mode.regCmd := by rw [hmi]; decide
  unfold finishLine
  rw [if_neg hm, if_neg hc, if_pos hmi]

theorem finishLine_bothio (s : PState) {f : String}
    (hm2 : s.redirect_mode = Mode.output ∨ s.redirect_mode = Mode.outputAppend)
    (hc : s.command ≠ []) (hif : s.input_file = some f) :
    finishLine s = ParseOutcome.success (s.events ++
      exec_redir_bothio_events s.redirect_mode s.redirect_cmd f (s.command.headD "")) := by
  have hm : s.redirect_mode ≠ Mode.regCmd := by
    rcases hm2 with h | h <;> rw [h] <;> decide
  have hmi : ¬s.redirect_mode = Mode.input := by
    rcases hm2 with h | h <;> rw [h] <;> decide
  unfold finishLine
  rw [if_neg hm, if_neg hc, if_neg hmi, if_pos hm2, hif]

theorem finishLine_outputPipeRedirect (s : PState)
    (hm2 : s.redirect_mode = Mode.output ∨ s.redirect_mode = Mode.outputAppend)
    (hc : s.command ≠ []) (hif : s.input_file = none)
    (hob : s.output_before_pipe = true) :
    finishLine s = ParseOutcome.success (s.events ++
      output_pipe_redirect_events (s.livePipe.getD 0) s.redirect_mode
        s.redirect_cmd (s.command.headD "")) := by
  have hm : s.redirect_mode ≠ Mode.regCmd := by
    rcases hm2 with h | h <;> rw [h] <;> decide
  have hmi : ¬s.redirect_mode = Mode.input := by
    rcases hm2 with h | h <;> rw [h] <;> decide
  unfold finishLine
  rw [if_neg hm, if_neg hc, if_neg hmi, if_pos hm2, hif]
  simp only [if_pos hob]

theorem finishLine_output (s : PState)
    (hm2 : s.redirect_mode = Mode.output ∨ s.redirect_mode = Mode.outputAppend)
    (hc : s.command ≠ []) (hif : s.input_file = none)
    (hob : s.output_before_pipe = false) :
    finishLine s = ParseOutcome.success (s.events ++
      redirect_events s.redirect_mode s.redirect_cmd (s.command.headD "") true) := by
  have hm : s.redirect_mode ≠ Mode.regCmd := by
    rcases hm2 with h | h <;> rw [h] <;> decide
  have hmi : ¬s.redirect_mode = Mode.input := by
    rcases hm2 with h | h <;> rw [h] <;> decide
  unfold finishLine
  rw [if_neg hm, if_neg hc, if_neg hmi, if_pos hm2, hif]
  simp only [hob, Bool.false_eq_true, if_false]

theorem finishLine_pipe (s : PState) (hmp : s.redirect_mode = Mode.pipe)
    (hc : s.command ≠ []) :
    finishLine s = ParseOutcome.success (s.events ++
      output_pipe_events (s.livePipe.getD 0) s.command) := by
  have hm : s.redirect_mode ≠ Mode.regCmd := by rw [hmp]; decide
  have hmi : ¬s.redirect_mode = Mode.input := by rw [hmp]; decide
  have hm2 : ¬(s.redirect_mode = Mode.output ∨ s.redirect_mode = Mode.outputAppend) := by
    rw [hmp]; decide
  unfold finishLine
  rw [if_neg hm, if_neg hc, if_neg hmi, if_neg hm2]

/-- Any successful step leaves the redirect mode at `INPUT`, an output
mode, `PIPE`, or unchanged — it never resets it to `REG_CMD`. -/
theorem stepToken_mode {s s2 : PState} {t : String}
    (h : stepToken s t = StepRes.ok s2) :
    s2.redirect_mode = Mode.input ∨ s2.redirect_mode = Mode.output ∨
    s2.redirect_mode = Mode.outputAppend ∨ s2.redirect_mode = Mode.pipe ∨
    s2.redirect_mode = s.redirect_mode := by
  unfold stepToken at h
  split_ifs at h <;>
    first
      | exact StepRes.noConfusion h
      | (injection h with h; subst h; simp)

/-! ## The claims -/

/-- C1 (confirmed): end-of-line resolution — the Redirect Mode at scan
completion determines exactly which executor runs on a line consumed to
completion without a parse error: `REG_CMD` runs the single-stage
executor with no redirection; `INPUT` runs the single-stage executor
with input redirection from the Pending Stage Buffer command and the
collected file token; an output mode runs the dual-redirection executor
if an input file was recorded, else the final-stage launcher with
output redirection if output-before-pipe was recorded, else the
single-stage executor with output redirection; `PIPE` runs the
final-stage launcher with no redirection on the just-completed
Argument Vector. -/
theorem c1_end_of_line_dispatch (s : PState) :
    (s.redirect_mode = Mode.regCmd →
      finishLine s = ParseOutcome.success
        (s.events ++ exec_command_events Mode.regCmd s.command none)) ∧
    (s.redirect_mode = Mode.input → s.command ≠ [] →
      finishLine s = ParseOutcome.success (s.events ++
        redirect_events Mode.input s.redirect_cmd (s.command.headD "") true)) ∧
    ((s.redirect_mode = Mode.output ∨ s.redirect_mode = Mode.outputAppend) →
      s.command ≠ [] →
      (∀ f, s.input_file = some f →
        finishLine s = ParseOutcome.success (s.events ++
          exec_redir_bothio_events s.redirect_mode s.redirect_cmd f (s.command.headD ""))) ∧
      (s.input_file = none → s.output_before_pipe = true →
        finishLine s = ParseOutcome.success (s.events ++
          output_pipe_redirect_events (s.livePipe.getD 0) s.redirect_mode
            s.redirect_cmd (s.command.headD ""))) ∧
      (s.input_file = none → s.output_before_pipe = false →
        finishLine s = ParseOutcome.success (s.events ++
          redirect_events s.redirect_mode s.redirect_cmd (s.command.headD "") true))) ∧
    (s.redirect_mode = Mode.pipe → s.command ≠ [] →
      finishLine s = ParseOutcome.success (s.events ++
        output_pipe_events (s.livePipe.getD 0) s.command)) := by
  refine ⟨finishLine_reg s, finishLine_input s, ?_, finishLine_pipe s⟩
  intro hm2 hc
  exact ⟨fun f hif => finishLine_bothio s hm2 hc hif,
         fun hif hob => finishLine_outputPipeRedirect s hm2 hc hif hob,
         fun hif hob => finishLine_output s hm2 hc hif hob⟩

theorem c1_end_of_line_dispatch_witness :
    finishLine { initState with
      redirect_mode := Mode.pipe
      command := ["c"]
      livePipe := some 0
      nextPipe := 1 } =
      ParseOutcome.success (output_pipe_events 0 ["c"]) :=
  (c1_end_of_line_dispatch _).2.2.2 rfl (by decide)

/-- C4 (confirmed): when `>` or `>>` is scanned while the mode is
already an output mode, the single collected token is treated as a
file to redirect output to immediately — opened (and so created) at
once with the current output mode's flags, then closed — and the mode
becomes the new output mode with the Argument Vector reset.  In the
chain `cmd > a > b`, `a` is merely opened with truncation and closed,
and only `b` is wired to the command's stdout: last redirection
wins. -/
theorem c4_output_chain : (∀ (s : PState) (t f : String) (rest : List String),
    (t = tokGT ∨ t = tokGTGT) →
    (s.redirect_mode = Mode.output ∨ s.redirect_mode = Mode.outputAppend) →
    s.command = f :: rest →
    stepToken s t = StepRes.ok { s with
      events := s.events ++
        [Event.parentOpen f (redirect_flags s.redirect_mode), Event.parentCloseFile f]
      command := []
      redirect_mode := if t = tokGTGT then Mode.outputAppend else Mode.output }) ∧
    parse_input_and_exec ("cmd > a > b") = ParseOutcome.success
      [Event.parentOpen ("a") OpenMode.writeCreateTrunc,
       Event.parentCloseFile ("a"),
       Event.parentOpen ("b") OpenMode.writeCreateTrunc,
       Event.spawn
         { argv := ["cmd"]
         , opens := []
         , stdinFrom := StdSrc.inherited
         , stdoutTo := StdDst.toFile ("b") OpenMode.writeCreateTrunc
         , closesPipe := []
         , closesFile := ["b"] },
       Event.parentWait,
       Event.parentCloseFile ("b")] := by
  constructor
  · intro s t f rest ht hm2 hcmd
    have hc : s.command ≠ [] := by rw [hcmd]; simp
    have hne : s.redirect_mode ≠ Mode.input := by
      rcases hm2 with h | h <;> rw [h] <;> decide
    rw [stepToken_gt_out s ht hm2 hc, hcmd]
    simp [redirect_events, hne]
  · unfold parse_input_and_exec
    rw [show tokenize ("cmd > a > b") = ["cmd", ">", "a", ">", "b"] from by decide]
    have ha1 : stepToken (initState) ("cmd") = StepRes.ok ({ command := ["cmd"], redirect_cmd := [], input_file := none, output_before_pipe := false, redirect_mode := Mode.regCmd, livePipe := none, nextPipe := 0, events := [] }) := by decide
    have ha2 : stepToken ({ command := ["cmd"], redirect_cmd := [], input_file := none, output_before_pipe := false, redirect_mode := Mode.regCmd, livePipe := none, nextPipe := 0, events := [] }) (">") = StepRes.ok ({ command := [], redirect_cmd := ["cmd"], input_file := none, output_before_pipe := false, redirect_mode := Mode.output, livePipe := none, nextPipe := 0, events := [] }) := by decide
    have ha3 : stepToken ({ command := [], redirect_cmd := ["cmd"], input_file := none, output_before_pipe := false, redirect_mode := Mode.output, livePipe := none, nextPipe := 0, events := [] }) ("a") = StepRes.ok ({ command := ["a"], redirect_cmd := ["cmd"], input_file := none, output_before_pipe := false, redirect_mode := Mode.output, livePipe := none, nextPipe := 0, events := [] }) := by decide
    have ha4 : stepToken ({ command := ["a"], redirect_cmd := ["cmd"], input_file := none, output_before_pipe := false, redirect_mode := Mode.output, livePipe := none, nextPipe := 0, events := [] }) (">") = StepRes.ok ({ command := [], redirect_cmd := ["cmd"], input_file := none, output_before_pipe := false, redirect_mode := Mode.output, livePipe := none, nextPipe := 0, events := [Event.parentOpen ("a") OpenMode.writeCreateTrunc, Event.parentCloseFile ("a")] }) := by decide
    have ha5 : stepToken ({ command := [], redirect_cmd := ["cmd"], input_file := none, output_before_pipe := false, redirect_mode := Mode.output, livePipe := none, nextPipe := 0, events := [Event.parentOpen ("a") OpenMode.writeCreateTrunc, Event.parentCloseFile ("a")] }) ("b") = StepRes.ok ({ command := ["b"], redirect_cmd := ["cmd"], input_file := none, output_before_pipe := false, redirect_mode := Mode.output, livePipe := none, nextPipe := 0, events := [Event.parentOpen ("a") OpenMode.writeCreateTrunc, Event.parentCloseFile ("a")] }) := by decide
    rw [runTokens_cons_ok _ _ (by decide) ha1, runTokens_cons_ok _ _ (by decide) ha2, runTokens_cons_ok _ _ (by decide) ha3, runTokens_cons_ok _ _ (by decide) ha4, runTokens_cons_ok _ _ (by decide) ha5, runTokens_nil _ (by decide)]
    decide

theorem c4_output_chain_witness :
    stepToken { initState with redirect_mode := Mode.output, command := ["a"] } tokGT =
      StepRes.ok { initState with
        redirect_mode := Mode.output
        command := []
        events := [Event.parentOpen ("a") OpenMode.writeCreateTrunc,
                   Event.parentCloseFile ("a")] } :=
  c4_output_chain.1 _ tokGT ("a") [] (Or.inl rfl) (Or.inl rfl) rfl
/-- C5 (confirmed): at every scan position, a `|` token is the reported
"Cannot perform output operation before piping." parse error exactly
when the current Redirect Mode is an output mode (`OUTPUT` or
`OUTPUT_APPEND`); the line then aborts with the event trace unchanged,
so no further stage is launched for it. -/
theorem c5_pipe_after_output_error (s : PState) :
    (stepToken s tokBar = StepRes.err msgOutputBeforePiping s.events ↔
      s.redirect_mode = Mode.output ∨ s.redirect_mode = Mode.outputAppend) ∧
    (∀ rest, (s.redirect_mode = Mode.output ∨ s.redirect_mode = Mode.outputAppend) →
      s.command.length < MAX_ARGS + 1 →
      runTokens (tokBar :: rest) s =
        ParseOutcome.failure msgOutputBeforePiping s.events) := by
  constructor
  · constructor
    · intro h
      by_contra hm2
      by_cases hmp : s.redirect_mode = Mode.pipe
      · by_cases hcc : s.command = []
        · rw [stepToken_bar_missing s hmp hcc] at h
          injection h with hmsg _
          exact absurd hmsg (by decide)
        · rw [stepToken_bar_inter s hmp hcc] at h
          exact StepRes.noConfusion h
      · by_cases hmi : s.redirect_mode = Mode.input
        · rw [stepToken_bar_inputRedirect s hmi] at h
          exact StepRes.noConfusion h
        · have hm : s.redirect_mode = Mode.regCmd := by
            cases hx : s.redirect_mode with
            | regCmd => rfl
            | input => exact absurd hx hmi
            | output => exact absurd (Or.inl hx) hm2
            | outputAppend => exact absurd (Or.inr hx) hm2
            | pipe => exact absurd hx hmp
          rw [stepToken_bar_first s hm] at h
          exact StepRes.noConfusion h
    · exact stepToken_bar_out s
  · intro rest hm2 hlen
    rw [runTokens_cons _ _ _ (by omega), stepToken_bar_out s hm2]

theorem c5_pipe_after_output_error_witness :
    runTokens [tokBar, "b"] { initState with redirect_mode := Mode.output } =
      ParseOutcome.failure msgOutputBeforePiping [] :=
  (c5_pipe_after_output_error _).2 ["b"] (Or.inl rfl) (by decide)

/-- C6 (confirmed): a `<` token is legal only in mode `None`
(`REG_CMD`): in any other mode it is the reported "Cannot perform
redirection before input." parse error, aborting the line with the
trace unchanged; and no successful step ever returns the mode to
`REG_CMD`, so an input redirection operator can take effect at most
once per line. -/
theorem c6_input_redirect_once (s : PState) :
    (stepToken s tokLT = StepRes.err msgRedirBeforeInput s.events ↔
      s.redirect_mode ≠ Mode.regCmd) ∧
    (s.redirect_mode = Mode.regCmd →
      stepToken s tokLT = StepRes.ok { s with
        redirect_cmd := s.command
        command := []
        redirect_mode := Mode.input }) ∧
    (∀ t s2, stepToken s t = StepRes.ok s2 → s.redirect_mode ≠ Mode.regCmd →
      s2.redirect_mode ≠ Mode.regCmd) := by
  refine ⟨⟨?_, stepToken_lt_err s⟩, stepToken_lt_ok s, ?_⟩
  · intro h
    intro hm
    rw [stepToken_lt_ok s hm] at h
    exact StepRes.noConfusion h
  · intro t s2 h hne
    rcases stepToken_mode h with h2 | h2 | h2 | h2 | h2 <;> rw [h2] <;>
      first
        | decide
        | exact hne

theorem c6_input_redirect_once_witness :
    stepToken { initState with redirect_mode := Mode.pipe } tokLT =
      StepRes.err msgRedirBeforeInput [] :=
  (c6_input_redirect_once _).1.mpr (by decide)

/-- A run over plain tokens whose count pushes `cmd_index` past
`MAX_ARGS + 1` aborts with "Too many args." and performs no further
action. -/
theorem runTokens_plain_overflow : ∀ (toks : List String) (s : PState),
    (∀ t ∈ toks, isPlain t) →
    MAX_ARGS + 1 ≤ s.command.length + toks.length →
    runTokens toks s = ParseOutcome.failure msgTooManyArgs s.events := by
  intro toks
  induction toks with
  | nil =>
    intro s _ hlen
    exact runTokens_overflow [] s (by simpa using hlen)
  | cons t rest ih =>
    intro s hp hlen
    by_cases hov : s.command.length ≥ MAX_ARGS + 1
    · exact runTokens_overflow _ s hov
    · rw [runTokens_cons_ok t rest hov (stepToken_plain (hp t (List.mem_cons_self t rest)) s)]
      have := ih { s with command := s.command ++ [t] }
        (fun x hx => hp x (List.mem_cons_of_mem _ hx))
        (by simp only [List.length_append, List.length_cons, List.length_nil] at hlen ⊢; omega)
      exact this

/-- A run over plain tokens that stays within the argument limit just
accumulates them and resolves the line at the end. -/
theorem runTokens_plain_run : ∀ (toks : List String) (s : PState),
    (∀ t ∈ toks, isPlain t) →
    s.command.length + toks.length ≤ MAX_ARGS →
    runTokens toks s = finishLine { s with command := s.command ++ toks } := by
  intro toks
  induction toks with
  | nil =>
    intro s _ hlen
    rw [runTokens_nil s (by simp only [MAX_ARGS] at hlen ⊢; omega), List.append_nil]
  | cons t rest ih =>
    intro s hp hlen
    have hov : ¬s.command.length ≥ MAX_ARGS + 1 := by
      simp only [List.length_cons, MAX_ARGS] at hlen ⊢
      omega
    rw [runTokens_cons_ok t rest hov (stepToken_plain (hp t (List.mem_cons_self t rest)) s)]
    have := ih { s with command := s.command ++ [t] }
      (fun x hx => hp x (List.mem_cons_of_mem _ hx))
      (by simp only [List.length_append, List.length_cons, List.length_nil] at hlen ⊢; omega)
    rw [this]
    have hrw : (s.command ++ [t]) ++ rest = s.command ++ t :: rest := by simp
    rw [hrw]

/-- Any successful step either empties the argument vector or appends
exactly the consumed token to it; the pending buffer is either kept or
overwritten with the (previous) argument vector. -/
theorem stepToken_shapes {s s2 : PState} {t : String}
    (h : stepToken s t = StepRes.ok s2) :
    (s2.command = [] ∨ s2.command = s.command ++ [t]) ∧
    (s2.redirect_cmd = s.redirect_cmd ∨ s2.redirect_cmd = s.command) := by
  unfold stepToken at h
  split_ifs at h <;>
    first
      | exact StepRes.noConfusion h
      | (injection h with h; subst h; simp)

/-- C2 counterexample: the malformed line `| cmd` (missing program
before the pipe operator, the claim's own first example) is NOT
reported as a parse error — the scan succeeds, handing the empty
command to the first-stage launcher, and two children are forked. -/
theorem c2_missing_program_cex :
    parse_input_and_exec ("| cmd") = ParseOutcome.success pipeNoProgramTrace ∧
    spawnCount pipeNoProgramTrace = 2 := by
  constructor
  · unfold parse_input_and_exec
    rw [show tokenize ("| cmd") = ["|", "cmd"] from by decide]
    have hb1 : stepToken (initState) ("|") = StepRes.ok ({ command := [], redirect_cmd := [], input_file := none, output_before_pipe := false, redirect_mode := Mode.pipe, livePipe := some 0, nextPipe := 1, events := [Event.pipeCreate 0, Event.spawn { argv := [], opens := [], stdinFrom := StdSrc.inherited, stdoutTo := StdDst.toPipe 0, closesPipe := [(0, PEnd.r), (0, PEnd.w)], closesFile := [] }, Event.parentWait] }) := by decide
    have hb2 : stepToken ({ command := [], redirect_cmd := [], input_file := none, output_before_pipe := false, redirect_mode := Mode.pipe, livePipe := some 0, nextPipe := 1, events := [Event.pipeCreate 0, Event.spawn { argv := [], opens := [], stdinFrom := StdSrc.inherited, stdoutTo := StdDst.toPipe 0, closesPipe := [(0, PEnd.r), (0, PEnd.w)], closesFile := [] }, Event.parentWait] }) ("cmd") = StepRes.ok ({ command := ["cmd"], redirect_cmd := [], input_file := none, output_before_pipe := false, redirect_mode := Mode.pipe, livePipe := some 0, nextPipe := 1, events := [Event.pipeCreate 0, Event.spawn { argv := [], opens := [], stdinFrom := StdSrc.inherited, stdoutTo := StdDst.toPipe 0, closesPipe := [(0, PEnd.r), (0, PEnd.w)], closesFile := [] }, Event.parentWait] }) := by decide
    rw [runTokens_cons_ok _ _ (by decide) hb1, runTokens_cons_ok _ _ (by decide) hb2, runTokens_nil _ (by decide)]
    decide
  · decide
/-- C2 (corrected): the missing-filename / missing-program parse
errors that the scanner does detect abort the line, keep the trace
unchanged (no process spawned by the erroring step), and return
failure, leaving the interpreter alive: a missing filename when
`>`/`>>` follows `<` or another output operator, a missing program at
an interior `|` boundary, and a missing filename/program at end of
line.  But a missing program before the FIRST `|` and a missing
filename when `|` follows `<` are not detected: the empty vector
(resp. null filename) is passed to the first-stage launcher, which
forks a child whose failure surfaces only at exec/open time. -/
theorem c2_parse_errors (s : PState) :
    (∀ t, (t = tokGT ∨ t = tokGTGT) → s.redirect_mode = Mode.input →
      s.command = [] →
      stepToken s t = StepRes.err msgNoFileInput s.events) ∧
    (∀ t, (t = tokGT ∨ t = tokGTGT) →
      (s.redirect_mode = Mode.output ∨ s.redirect_mode = Mode.outputAppend) →
      s.command = [] →
      stepToken s t = StepRes.err msgNoFileOutput s.events) ∧
    (s.redirect_mode = Mode.pipe → s.command = [] →
      stepToken s tokBar = StepRes.err msgMissingProgram s.events) ∧
    (s.redirect_mode ≠ Mode.regCmd → s.command = [] →
      finishLine s = ParseOutcome.failure msgNoFileIO s.events) ∧
    (s.redirect_mode = Mode.regCmd →
      stepToken s tokBar = StepRes.ok { s with
        events := s.events ++ input_pipe_events s.nextPipe s.command
        livePipe := some s.nextPipe
        nextPipe := s.nextPipe + 1
        command := []
        redirect_mode := Mode.pipe }) ∧
    (s.redirect_mode = Mode.input →
      stepToken s tokBar = StepRes.ok { s with
        events := s.events ++
          input_pipe_redirect_events s.nextPipe s.redirect_cmd (s.command.headD "")
        livePipe := some s.nextPipe
        nextPipe := s.nextPipe + 1
        command := []
        redirect_mode := Mode.pipe }) :=
  ⟨fun _ ht => stepToken_gt_input_err s ht,
   fun _ ht => stepToken_gt_out_err s ht,
   stepToken_bar_missing s,
   finishLine_empty s,
   stepToken_bar_first s,
   stepToken_bar_inputRedirect s⟩

theorem c2_parse_errors_witness :
    finishLine { initState with redirect_mode := Mode.input } =
      ParseOutcome.failure msgNoFileIO [] :=
  (c2_parse_errors _).2.2.2.1 (by decide) rfl

/-- C7 counterexample: the line `a b c d e | f g h i j k` has 12
tokens — more than the `MAX_ARGS + 1 = 11` slots — yet the scan
succeeds without reporting "Too many args." and spawns two children,
because `cmd_index` resets at the `|`. -/
theorem c7_token_count_cex :
    parse_input_and_exec ("a b c d e | f g h i j k") =
      ParseOutcome.success twelveTokenPipeTrace ∧
    (tokenize ("a b c d e | f g h i j k")).length = 12 ∧
    MAX_ARGS + 1 = 11 ∧
    spawnCount twelveTokenPipeTrace = 2 := by
  refine ⟨?_, by decide, rfl, by decide⟩
  unfold parse_input_and_exec
  rw [show tokenize ("a b c d e | f g h i j k") =
    ["a", "b", "c", "d", "e", "|", "f", "g", "h", "i", "j", "k"] from by decide]
  have hc1 : stepToken (initState) ("a") = StepRes.ok ({ command := ["a"], redirect_cmd := [], input_file := none, output_before_pipe := false, redirect_mode := Mode.regCmd, livePipe := none, nextPipe := 0, events := [] }) := by decide
  have hc2 : stepToken ({ command := ["a"], redirect_cmd := [], input_file := none, output_before_pipe := false, redirect_mode := Mode.regCmd, livePipe := none, nextPipe := 0, events := [] }) ("b") = StepRes.ok ({ command := ["a", "b"], redirect_cmd := [], input_file := none, output_before_pipe := false, redirect_mode := Mode.regCmd, livePipe := none, nextPipe := 0, events := [] }) := by decide
  have hc3 : stepToken ({ command := ["a", "b"], redirect_cmd := [], input_file := none, output_before_pipe := false, redirect_mode := Mode.regCmd, livePipe := none, nextPipe := 0, events := [] }) ("c") = StepRes.ok ({ command := ["a", "b", "c"], redirect_cmd := [], input_file := none, output_before_pipe := false, redirect_mode := Mode.regCmd, livePipe := none, nextPipe := 0, events := [] }) := by decide
  have hc4 : stepToken ({ command := ["a", "b", "c"], redirect_cmd := [], input_file := none, output_before_pipe := false, redirect_mode := Mode.regCmd, livePipe := none, nextPipe := 0, events := [] }) ("d") = StepRes.ok ({ command := ["a", "b", "c", "d"], redirect_cmd := [], input_file := none, output_before_pipe := false, redirect_mode := Mode.regCmd, livePipe := none, nextPipe := 0, events := [] }) := by decide
  have hc5 : stepToken ({ command := ["a", "b", "c", "d"], redirect_cmd := [], input_file := none, output_before_pipe := false, redirect_mode := Mode.regCmd, livePipe := none, nextPipe := 0, events := [] }) ("e") = StepRes.ok ({ command := ["a", "b", "c", "d", "e"], redirect_cmd := [], input_file := none, output_before_pipe := false, redirect_mode := Mode.regCmd, livePipe := none, nextPipe := 0, events := [] }) := by decide
  have hc6 : stepToken ({ command := ["a", "b", "c", "d", "e"], redirect_cmd := [], input_file := none, output_before_pipe := false, redirect_mode := Mode.regCmd, livePipe := none, nextPipe := 0, events := [] }) ("|") = StepRes.ok ({ command := [], redirect_cmd := [], input_file := none, output_before_pipe := false, redirect_mode := Mode.pipe, livePipe := some 0, nextPipe := 1, events := [Event.pipeCreate 0, Event.spawn { argv := ["a", "b", "c", "d", "e"], opens := [], stdinFrom := StdSrc.inherited, stdoutTo := StdDst.toPipe 0, closesPipe := [(0, PEnd.r), (0, PEnd.w)], closesFile := [] }, Event.parentWait] }) := by decide
  have hc7 : stepToken ({ command := [], redirect_cmd := [], input_file := none, output_before_pipe := false, redirect_mode := Mode.pipe, livePipe := some 0, nextPipe := 1, events := [Event.pipeCreate 0, Event.spawn { argv := ["a", "b", "c", "d", "e"], opens := [], stdinFrom := StdSrc.inherited, stdoutTo := StdDst.toPipe 0, closesPipe := [(0, PEnd.r), (0, PEnd.w)], closesFile := [] }, Event.parentWait] }) ("f") = StepRes.ok ({ command := ["f"], redirect_cmd := [], input_file := none, output_before_pipe := false, redirect_mode := Mode.pipe, livePipe := some 0, nextPipe := 1, events := [Event.pipeCreate 0, Event.spawn { argv := ["a", "b", "c", "d", "e"], opens := [], stdinFrom := StdSrc.inherited, stdoutTo := StdDst.toPipe 0, closesPipe := [(0, PEnd.r), (0, PEnd.w)], closesFile := [] }, Event.parentWait] }) := by decide
  have hc8 : stepToken ({ command := ["f"], redirect_cmd := [], input_file := none, output_before_pipe := false, redirect_mode := Mode.pipe, livePipe := some 0, nextPipe := 1, events := [Event.pipeCreate 0, Event.spawn { argv := ["a", "b", "c", "d", "e"], opens := [], stdinFrom := StdSrc.inherited, stdoutTo := StdDst.toPipe 0, closesPipe := [(0, PEnd.r), (0, PEnd.w)], closesFile := [] }, Event.parentWait] }) ("g") = StepRes.ok ({ command := ["f", "g"], redirect_cmd := [], input_file := none, output_before_pipe := false, redirect_mode := Mode.pipe, livePipe := some 0, nextPipe := 1, events := [Event.pipeCreate 0, Event.spawn { argv := ["a", "b", "c", "d", "e"], opens := [], stdinFrom := StdSrc.inherited, stdoutTo := StdDst.toPipe 0, closesPipe := [(0, PEnd.r), (0, PEnd.w)], closesFile := [] }, Event.parentWait] }) := by decide
  have hc9 : stepToken ({ command := ["f", "g"], redirect_cmd := [], input_file := none, output_before_pipe := false, redirect_mode := Mode.pipe, livePipe := some 0, nextPipe := 1, events := [Event.pipeCreate 0, Event.spawn { argv := ["a", "b", "c", "d", "e"], opens := [], stdinFrom := StdSrc.inherited, stdoutTo := StdDst.toPipe 0, closesPipe := [(0, PEnd.r), (0, PEnd.w)], closesFile := [] }, Event.parentWait] }) ("h") = StepRes.ok ({ command := ["f", "g", "h"], redirect_cmd := [], input_file := none, output_before_pipe := false, redirect_mode := Mode.pipe, livePipe := some 0, nextPipe := 1, events := [Event.pipeCreate 0, Event.spawn { argv := ["a", "b", "c", "d", "e"], opens := [], stdinFrom := StdSrc.inherited, stdoutTo := StdDst.toPipe 0, closesPipe := [(0, PEnd.r), (0, PEnd.w)], closesFile := [] }, Event.parentWait] }) := by decide
  have hc10 : stepToken ({ command := ["f", "g", "h"], redirect_cmd := [], input_file := none, output_before_pipe := false, redirect_mode := Mode.pipe, livePipe := some 0, nextPipe := 1, events := [Event.pipeCreate 0, Event.spawn { argv := ["a", "b", "c", "d", "e"], opens := [], stdinFrom := StdSrc.inherited, stdoutTo := StdDst.toPipe 0, closesPipe := [(0, PEnd.r), (0, PEnd.w)], closesFile := [] }, Event.parentWait] }) ("i") = StepRes.ok ({ command := ["f", "g", "h", "i"], redirect_cmd := [], input_file := none, output_before_pipe := false, redirect_mode := Mode.pipe, livePipe := some 0, nextPipe := 1, events := [Event.pipeCreate 0, Event.spawn { argv := ["a", "b", "c", "d", "e"], opens := [], stdinFrom := StdSrc.inherited, stdoutTo := StdDst.toPipe 0, closesPipe := [(0, PEnd.r), (0, PEnd.w)], closesFile := [] }, Event.parentWait] }) := by decide
  have hc11 : stepToken ({ command := ["f", "g", "h", "i"], redirect_cmd := [], input_file := none, output_before_pipe := false, redirect_mode := Mode.pipe, livePipe := some 0, nextPipe := 1, events := [Event.pipeCreate 0, Event.spawn { argv := ["a", "b", "c", "d", "e"], opens := [], stdinFrom := StdSrc.inherited, stdoutTo := StdDst.toPipe 0, closesPipe := [(0, PEnd.r), (0, PEnd.w)], closesFile := [] }, Event.parentWait] }) ("j") = StepRes.ok ({ command := ["f", "g", "h", "i", "j"], redirect_cmd := [], input_file := none, output_before_pipe := false, redirect_mode := Mode.pipe, livePipe := some 0, nextPipe := 1, events := [Event.pipeCreate 0, Event.spawn { argv := ["a", "b", "c", "d", "e"], opens := [], stdinFrom := StdSrc.inherited, stdoutTo := StdDst.toPipe 0, closesPipe := [(0, PEnd.r), (0, PEnd.w)], closesFile := [] }, Event.parentWait] }) := by decide
  have hc12 : stepToken ({ command := ["f", "g", "h", "i", "j"], redirect_cmd := [], input_file := none, output_before_pipe := false, redirect_mode := Mode.pipe, livePipe := some 0, nextPipe := 1, events := [Event.pipeCreate 0, Event.spawn { argv := ["a", "b", "c", "d", "e"], opens := [], stdinFrom := StdSrc.inherited, stdoutTo := StdDst.toPipe 0, closesPipe := [(0, PEnd.r), (0, PEnd.w)], closesFile := [] }, Event.parentWait] }) ("k") = StepRes.ok ({ command := ["f", "g", "h", "i", "j", "k"], redirect_cmd := [], input_file := none, output_before_pipe := false, redirect_mode := Mode.pipe, livePipe := some 0, nextPipe := 1, events := [Event.pipeCreate 0, Event.spawn { argv := ["a", "b", "c", "d", "e"], opens := [], stdinFrom := StdSrc.inherited, stdoutTo := StdDst.toPipe 0, closesPipe := [(0, PEnd.r), (0, PEnd.w)], closesFile := [] }, Event.parentWait] }) := by decide
  rw [runTokens_cons_ok _ _ (by decide) hc1, runTokens_cons_ok _ _ (by decide) hc2, runTokens_cons_ok _ _ (by decide) hc3, runTokens_cons_ok _ _ (by decide) hc4, runTokens_cons_ok _ _ (by decide) hc5, runTokens_cons_ok _ _ (by decide) hc6, runTokens_cons_ok _ _ (by decide) hc7, runTokens_cons_ok _ _ (by decide) hc8, runTokens_cons_ok _ _ (by decide) hc9, runTokens_cons_ok _ _ (by decide) hc10, runTokens_cons_ok _ _ (by decide) hc11, runTokens_cons_ok _ _ (by decide) hc12, runTokens_nil _ (by decide)]
  decide

/-- C7 (corrected): the `cmd_index >= MAX_ARGS + 1` check is per
stage, not per line: whenever the current Argument Vector has
accumulated `MAX_ARGS + 1` entries by the top of an iteration, the
scan reports "Too many args." and aborts with no further event; in
particular an operator-free line with more than `MAX_ARGS` tokens
reports the error and spawns no process at all.  A line with operators
may exceed that token count in total without the error, because the
counter resets at each operator (see the counterexample). -/
theorem c7_too_many_args :
    (∀ (toks : List String) (s : PState), s.command.length ≥ MAX_ARGS + 1 →
      runTokens toks s = ParseOutcome.failure msgTooManyArgs s.events) ∧
    (∀ toks : List String, (∀ t ∈ toks, isPlain t) → MAX_ARGS + 1 ≤ toks.length →
      runTokens toks initState = ParseOutcome.failure msgTooManyArgs []) := by
  refine ⟨runTokens_overflow, ?_⟩
  intro toks hp hlen
  exact runTokens_plain_overflow toks initState hp (by simpa [initState] using hlen)

theorem c7_too_many_args_witness :
    runTokens ["a0", "a1", "a2", "a3", "a4", "a5", "a6", "a7", "a8", "a9", "a10"]
      initState = ParseOutcome.failure msgTooManyArgs [] :=
  c7_too_many_args.2 _ (by decide) (by decide)

/-- C9 counterexample: an operator-free line of 11 tokens — `MAX_ARGS
+ 1` of them — spawns no child at all: the scan aborts with
"Too many args." and an empty trace, contradicting "exactly one child
process is spawned" for every operator-free line. -/
theorem c9_plain_line_cex :
    runTokens ["b0", "b1", "b2", "b3", "b4", "b5", "b6", "b7", "b8", "b9", "b10"]
      initState = ParseOutcome.failure msgTooManyArgs [] ∧
    spawnCount [] = 0 := by
  constructor
  · exact runTokens_plain_overflow _ initState (by decide) (by decide)
  · rfl

/-- C9 (corrected): for every line of at least one and at most
`MAX_ARGS` (10) whitespace-delimited tokens, none of them an operator
token, exactly one child is spawned, its argument vector is exactly the
line's token list in order, both standard streams are inherited, and
the parent blocks in one wait.  (With `MAX_ARGS + 1` or more plain
tokens the line instead aborts with "Too many args." and spawns
nothing — see the counterexample.) -/
theorem c9_plain_line (toks : List String) (_hne : toks ≠ [])
    (hp : ∀ t ∈ toks, isPlain t) (hlen : toks.length ≤ MAX_ARGS) :
    runTokens toks initState = ParseOutcome.success
      [Event.spawn
        { argv := toks
        , opens := []
        , stdinFrom := StdSrc.inherited
        , stdoutTo := StdDst.inherited
        , closesPipe := []
        , closesFile := [] },
       Event.parentWait] := by
  rw [runTokens_plain_run toks initState hp (by simpa [initState] using hlen)]
  rw [finishLine_reg _ rfl]
  rfl

theorem c9_plain_line_witness :
    runTokens ["ls", "-l"] initState = ParseOutcome.success
      [Event.spawn
        { argv := ["ls", "-l"]
        , opens := []
        , stdinFrom := StdSrc.inherited
        , stdoutTo := StdDst.inherited
        , closesPipe := []
        , closesFile := [] },
       Event.parentWait] :=
  c9_plain_line ["ls", "-l"] (by decide) (by decide) (by decide)

/-- C10 (confirmed): the scan never writes out of bounds in the fixed
`MAX_ARGS + 1`-slot arrays `command` and `redirect_cmd`: at every
loop-top state reached from the initial state, `cmd_index`
(= `command.length`) is at most `MAX_ARGS + 1`, and the leading
`cmd_index >= MAX_ARGS + 1` check aborts before any further write when
the bound is hit, so every plain-token write lands at an index at most
`MAX_ARGS`; and the saved vector always came from a state with
`cmd_index ≤ MAX_ARGS`, so `save_command` copies
`cmd_index + 1 ≤ MAX_ARGS + 1` entries (`redirect_cmd.length + 1 ≤
MAX_ARGS + 1`). -/
theorem c10_array_bounds (toks : List String) (s2 : PState)
    (hmem : s2 ∈ scanReach toks initState) :
    s2.command.length ≤ MAX_ARGS + 1 ∧ s2.redirect_cmd.length + 1 ≤ MAX_ARGS + 1 := by
  have key : ∀ (ts : List String) (s : PState),
      s.command.length ≤ MAX_ARGS + 1 → s.redirect_cmd.length ≤ MAX_ARGS →
      ∀ s3 ∈ scanReach ts s,
        s3.command.length ≤ MAX_ARGS + 1 ∧ s3.redirect_cmd.length + 1 ≤ MAX_ARGS + 1 := by
    intro ts
    induction ts with
    | nil =>
      intro s hc hr s3 hmem2
      unfold scanReach at hmem2
      rcases List.mem_cons.mp hmem2 with rfl | hmem3
      · exact ⟨hc, by omega⟩
      · split at hmem3
        · simp at hmem3
        · simp at hmem3
    | cons t rest ih =>
      intro s hc hr s3 hmem2
      unfold scanReach at hmem2
      rcases List.mem_cons.mp hmem2 with rfl | hmem3
      · exact ⟨hc, by omega⟩
      · by_cases hov : s.command.length ≥ MAX_ARGS + 1
        · rw [if_pos hov] at hmem3
          simp at hmem3
        · rw [if_neg hov] at hmem3
          have hmem4 : s3 ∈ (match stepToken s t with
              | StepRes.ok s4 => scanReach rest s4
              | StepRes.err _ _ => ([] : List PState)) := hmem3
          cases hst : stepToken s t with
          | ok s4 =>
            rw [hst] at hmem4
            obtain ⟨hsh1, hsh2⟩ := stepToken_shapes hst
            have hc4 : s4.command.length ≤ MAX_ARGS + 1 := by
              rcases hsh1 with h | h
              · rw [h]; simp
              · rw [h]
                simp only [List.length_append, List.length_cons, List.length_nil]
                omega
            have hr4 : s4.redirect_cmd.length ≤ MAX_ARGS := by
              rcases hsh2 with h | h
              · rw [h]; exact hr
              · rw [h]; omega
            exact ih s4 hc4 hr4 s3 hmem4
          | err m e =>
            rw [hst] at hmem4
            simp at hmem4
  exact key toks initState (by decide) (by decide) s2 hmem

theorem c10_array_bounds_witness :
    initState.command.length ≤ MAX_ARGS + 1 ∧
    initState.redirect_cmd.length + 1 ≤ MAX_ARGS + 1 :=
  c10_array_bounds ["a"] initState (by decide)

/-- C3 counterexample: on the line `a |`, aborted by the
"No file for I/O redirection." parse error, the pipe endpoint pair
created by the first-stage launch is closed zero times in the parent —
not the claimed exactly twice — so the pair leaks. -/
theorem c3_descriptor_cex :
    runTokens ["a", "|"] initState = ParseOutcome.failure msgNoFileIO pipeLeakTrace ∧
    Event.pipeCreate 0 ∈ pipeLeakTrace ∧
    parentCloseCount pipeLeakTrace 0 PEnd.r = 0 ∧
    parentCloseCount pipeLeakTrace 0 PEnd.w = 0 := by
  refine ⟨?_, by decide, by decide, by decide⟩
  have hd1 : stepToken (initState) ("a") = StepRes.ok ({ command := ["a"], redirect_cmd := [], input_file := none, output_before_pipe := false, redirect_mode := Mode.regCmd, livePipe := none, nextPipe := 0, events := [] }) := by decide
  have hd2 : stepToken ({ command := ["a"], redirect_cmd := [], input_file := none, output_before_pipe := false, redirect_mode := Mode.regCmd, livePipe := none, nextPipe := 0, events := [] }) ("|") = StepRes.ok ({ command := [], redirect_cmd := [], input_file := none, output_before_pipe := false, redirect_mode := Mode.pipe, livePipe := some 0, nextPipe := 1, events := [Event.pipeCreate 0, Event.spawn { argv := ["a"], opens := [], stdinFrom := StdSrc.inherited, stdoutTo := StdDst.toPipe 0, closesPipe := [(0, PEnd.r), (0, PEnd.w)], closesFile := [] }, Event.parentWait] }) := by decide
  rw [runTokens_cons_ok _ _ (by decide) hd1, runTokens_cons_ok _ _ (by decide) hd2, runTokens_nil _ (by decide)]
  decide

/-- C3 (corrected): on every line the scanner consumes to completion
without a parse error, every pipe endpoint pair created is closed
exactly twice in the parent (once per end), every child closes exactly
once each end of each pair open in the parent at its fork (and nothing
else), and no pipe descriptor remains open in the parent after the
line completes; for `a | b | c` in particular, three children are
spawned over two pipes and the parent ends with no pipe descriptor
open.  (On a line aborted by a parse error after a pipe was created
the pair is never closed in the parent — see the counterexample.) -/
theorem c3_descriptor_discipline :
    (∀ (toks : List String) (ev : List Event),
      runTokens toks initState = ParseOutcome.success ev →
      (∀ p, Event.pipeCreate p ∈ ev →
        parentCloseCount ev p PEnd.r = 1 ∧ parentCloseCount ev p PEnd.w = 1) ∧
      spawnsOKFrom [] ev = true ∧
      openAfter [] ev = []) ∧
    (parse_input_and_exec ("a | b | c") = ParseOutcome.success abcTrace ∧
     spawnCount abcTrace = 3 ∧
     createCount abcTrace 0 = 1 ∧ createCount abcTrace 1 = 1 ∧
     openAfter [] abcTrace = [] ∧
     spawnsOKFrom [] abcTrace = true) := by
  constructor
  · intro toks ev h
    obtain ⟨n, hcr, hcl, hop, hsp⟩ := runTokens_final Inv_initState h
    refine ⟨?_, hsp, hop⟩
    intro p hmem
    have hpos : createCount ev p ≠ 0 := by
      unfold createCount
      intro h0
      have h1 := List.countP_eq_zero.mp h0 _ hmem
      simp at h1
    have hlt : p < n := by
      by_contra hge
      rw [hcr p, if_neg hge] at hpos
      exact hpos rfl
    exact ⟨by rw [hcl p PEnd.r, if_pos hlt], by rw [hcl p PEnd.w, if_pos hlt]⟩
  · refine ⟨?_, by decide, by decide, by decide, by decide, by decide⟩
    unfold parse_input_and_exec
    rw [show tokenize ("a | b | c") = ["a", "|", "b", "|", "c"] from by decide]
    have hf1 : stepToken (initState) ("a") = StepRes.ok ({ command := ["a"], redirect_cmd := [], input_file := none, output_before_pipe := false, redirect_mode := Mode.regCmd, livePipe := none, nextPipe := 0, events := [] }) := by decide
    have hf2 : stepToken ({ command := ["a"], redirect_cmd := [], input_file := none, output_before_pipe := false, redirect_mode := Mode.regCmd, livePipe := none, nextPipe := 0, events := [] }) ("|") = StepRes.ok ({ command := [], redirect_cmd := [], input_file := none, output_before_pipe := false, redirect_mode := Mode.pipe, livePipe := some 0, nextPipe := 1, events := [Event.pipeCreate 0, Event.spawn { argv := ["a"], opens := [], stdinFrom := StdSrc.inherited, stdoutTo := StdDst.toPipe 0, closesPipe := [(0, PEnd.r), (0, PEnd.w)], closesFile := [] }, Event.parentWait] }) := by decide
    have hf3 : stepToken ({ command := [], redirect_cmd := [], input_file := none, output_before_pipe := false, redirect_mode := Mode.pipe, livePipe := some 0, nextPipe := 1, events := [Event.pipeCreate 0, Event.spawn { argv := ["a"], opens := [], stdinFrom := StdSrc.inherited, stdoutTo := StdDst.toPipe 0, closesPipe := [(0, PEnd.r), (0, PEnd.w)], closesFile := [] }, Event.parentWait] }) ("b") = StepRes.ok ({ command := ["b"], redirect_cmd := [], input_file := none, output_before_pipe := false, redirect_mode := Mode.pipe, livePipe := some 0, nextPipe := 1, events := [Event.pipeCreate 0, Event.spawn { argv := ["a"], opens := [], stdinFrom := StdSrc.inherited, stdoutTo := StdDst.toPipe 0, closesPipe := [(0, PEnd.r), (0, PEnd.w)], closesFile := [] }, Event.parentWait] }) := by decide
    have hf4 : stepToken ({ command := ["b"], redirect_cmd := [], input_file := none, output_before_pipe := false, redirect_mode := Mode.pipe, livePipe := some 0, nextPipe := 1, events := [Event.pipeCreate 0, Event.spawn { argv := ["a"], opens := [], stdinFrom := StdSrc.inherited, stdoutTo := StdDst.toPipe 0, closesPipe := [(0, PEnd.r), (0, PEnd.w)], closesFile := [] }, Event.parentWait] }) ("|") = StepRes.ok ({ command := [], redirect_cmd := [], input_file := none, output_before_pipe := false, redirect_mode := Mode.pipe, livePipe := some 1, nextPipe := 2, events := [Event.pipeCreate 0, Event.spawn { argv := ["a"], opens := [], stdinFrom := StdSrc.inherited, stdoutTo := StdDst.toPipe 0, closesPipe := [(0, PEnd.r), (0, PEnd.w)], closesFile := [] }, Event.parentWait, Event.pipeCreate 1, Event.spawn { argv := ["b"], opens := [], stdinFrom := StdSrc.fromPipe 0, stdoutTo := StdDst.toPipe 1, closesPipe := [(0, PEnd.r), (0, PEnd.w), (1, PEnd.r), (1, PEnd.w)], closesFile := [] }, Event.parentClosePipe 0 PEnd.r, Event.parentClosePipe 0 PEnd.w, Event.parentWait] }) := by decide
    have hf5 : stepToken ({ command := [], redirect_cmd := [], input_file := none, output_before_pipe := false, redirect_mode := Mode.pipe, livePipe := some 1, nextPipe := 2, events := [Event.pipeCreate 0, Event.spawn { argv := ["a"], opens := [], stdinFrom := StdSrc.inherited, stdoutTo := StdDst.toPipe 0, closesPipe := [(0, PEnd.r), (0, PEnd.w)], closesFile := [] }, Event.parentWait, Event.pipeCreate 1, Event.spawn { argv := ["b"], opens := [], stdinFrom := StdSrc.fromPipe 0, stdoutTo := StdDst.toPipe 1, closesPipe := [(0, PEnd.r), (0, PEnd.w), (1, PEnd.r), (1, PEnd.w)], closesFile := [] }, Event.parentClosePipe 0 PEnd.r, Event.parentClosePipe 0 PEnd.w, Event.parentWait] }) ("c") = StepRes.ok ({ command := ["c"], redirect_cmd := [], input_file := none, output_before_pipe := false, redirect_mode := Mode.pipe, livePipe := some 1, nextPipe := 2, events := [Event.pipeCreate 0, Event.spawn { argv := ["a"], opens := [], stdinFrom := StdSrc.inherited, stdoutTo := StdDst.toPipe 0, closesPipe := [(0, PEnd.r), (0, PEnd.w)], closesFile := [] }, Event.parentWait, Event.pipeCreate 1, Event.spawn { argv := ["b"], opens := [], stdinFrom := StdSrc.fromPipe 0, stdoutTo := StdDst.toPipe 1, closesPipe := [(0, PEnd.r), (0, PEnd.w), (1, PEnd.r), (1, PEnd.w)], closesFile := [] }, Event.parentClosePipe 0 PEnd.r, Event.parentClosePipe 0 PEnd.w, Event.parentWait] }) := by decide
    rw [runTokens_cons_ok _ _ (by decide) hf1, runTokens_cons_ok _ _ (by decide) hf2, runTokens_cons_ok _ _ (by decide) hf3, runTokens_cons_ok _ _ (by decide) hf4, runTokens_cons_ok _ _ (by decide) hf5, runTokens_nil _ (by decide)]
    decide

theorem c3_descriptor_discipline_witness :
    parentCloseCount abTrace 0 PEnd.r = 1 ∧ parentCloseCount abTrace 0 PEnd.w = 1 := by
  have hrun : runTokens ["a", "|", "b"] initState = ParseOutcome.success abTrace := by
    have he1 : stepToken (initState) ("a") = StepRes.ok ({ command := ["a"], redirect_cmd := [], input_file := none, output_before_pipe := false, redirect_mode := Mode.regCmd, livePipe := none, nextPipe := 0, events := [] }) := by decide
    have he2 : stepToken ({ command := ["a"], redirect_cmd := [], input_file := none, output_before_pipe := false, redirect_mode := Mode.regCmd, livePipe := none, nextPipe := 0, events := [] }) ("|") = StepRes.ok ({ command := [], redirect_cmd := [], input_file := none, output_before_pipe := false, redirect_mode := Mode.pipe, livePipe := some 0, nextPipe := 1, events := [Event.pipeCreate 0, Event.spawn { argv := ["a"], opens := [], stdinFrom := StdSrc.inherited, stdoutTo := StdDst.toPipe 0, closesPipe := [(0, PEnd.r), (0, PEnd.w)], closesFile := [] }, Event.parentWait] }) := by decide
    have he3 : stepToken ({ command := [], redirect_cmd := [], input_file := none, output_before_pipe := false, redirect_mode := Mode.pipe, livePipe := some 0, nextPipe := 1, events := [Event.pipeCreate 0, Event.spawn { argv := ["a"], opens := [], stdinFrom := StdSrc.inherited, stdoutTo := StdDst.toPipe 0, closesPipe := [(0, PEnd.r), (0, PEnd.w)], closesFile := [] }, Event.parentWait] }) ("b") = StepRes.ok ({ command := ["b"], redirect_cmd := [], input_file := none, output_before_pipe := false, redirect_mode := Mode.pipe, livePipe := some 0, nextPipe := 1, events := [Event.pipeCreate 0, Event.spawn { argv := ["a"], opens := [], stdinFrom := StdSrc.inherited, stdoutTo := StdDst.toPipe 0, closesPipe := [(0, PEnd.r), (0, PEnd.w)], closesFile := [] }, Event.parentWait] }) := by decide
    rw [runTokens_cons_ok _ _ (by decide) he1, runTokens_cons_ok _ _ (by decide) he2, runTokens_cons_ok _ _ (by decide) he3, runTokens_nil _ (by decide)]
    decide
  exact (c3_descriptor_discipline.1 ["a", "|", "b"] abTrace hrun).1 0 (by decide)

/-- C8 (confirmed): every input redirection file is opened read-only;
every `>` target is opened write/create/truncate; every `>>` target is
opened write/create/append — both in the flag computations of
`redirect_io` and of the ternary used by `exec_redir_bothio` /
`output_pipe_redirect`, and end to end on the lines `cmd < f`,
`cmd > f`, `cmd >> f`; and under append semantics two consecutive
`cmd >> f` runs leave `f` holding the previous content followed by
both runs' output in order, while `>` leaves only the last run's
output. -/
theorem c8_open_modes :
    (redirect_flags Mode.input = OpenMode.readOnly ∧
     redirect_flags Mode.output = OpenMode.writeCreateTrunc ∧
     redirect_flags Mode.outputAppend = OpenMode.writeCreateAppend ∧
     ternary_output_flags Mode.output = OpenMode.writeCreateTrunc ∧
     ternary_output_flags Mode.outputAppend = OpenMode.writeCreateAppend) ∧
    (∀ c f : String, isPlain c → isPlain f →
      runTokens [c, tokLT, f] initState = ParseOutcome.success
        [Event.parentOpen f OpenMode.readOnly,
         Event.spawn
           { argv := [c]
           , opens := []
           , stdinFrom := StdSrc.fromFile f
           , stdoutTo := StdDst.inherited
           , closesPipe := []
           , closesFile := [f] },
         Event.parentWait,
         Event.parentCloseFile f] ∧
      runTokens [c, tokGT, f] initState = ParseOutcome.success
        [Event.parentOpen f OpenMode.writeCreateTrunc,
         Event.spawn
           { argv := [c]
           , opens := []
           , stdinFrom := StdSrc.inherited
           , stdoutTo := StdDst.toFile f OpenMode.writeCreateTrunc
           , closesPipe := []
           , closesFile := [f] },
         Event.parentWait,
         Event.parentCloseFile f] ∧
      runTokens [c, tokGTGT, f] initState = ParseOutcome.success
        [Event.parentOpen f OpenMode.writeCreateAppend,
         Event.spawn
           { argv := [c]
           , opens := []
           , stdinFrom := StdSrc.inherited
           , stdoutTo := StdDst.toFile f OpenMode.writeCreateAppend
           , closesPipe := []
           , closesFile := [f] },
         Event.parentWait,
         Event.parentCloseFile f]) ∧
    (∀ (content : List String) (o1 o2 : String),
      fileAfterRun (fileAfterRun content OpenMode.writeCreateAppend o1)
          OpenMode.writeCreateAppend o2 = content ++ [o1, o2] ∧
      fileAfterRun (fileAfterRun content OpenMode.writeCreateTrunc o1)
          OpenMode.writeCreateTrunc o2 = [o2]) := by
  refine ⟨⟨rfl, rfl, rfl, rfl, rfl⟩, ?_, ?_⟩
  · intro c f hcp hfp
    refine ⟨?_, ?_, ?_⟩
    · rw [runTokens_cons_ok _ _ (by decide) (stepToken_plain hcp initState),
          runTokens_cons_ok _ _ (by simp [initState, MAX_ARGS]) (stepToken_lt_ok _ rfl),
          runTokens_cons_ok _ _ (by simp [initState, MAX_ARGS]) (stepToken_plain hfp _),
          runTokens_nil _ (by simp [initState, MAX_ARGS]),
          finishLine_input _ rfl (by simp)]
      simp [initState, redirect_events, exec_command_events, redirect_flags]
    · rw [runTokens_cons_ok _ _ (by decide) (stepToken_plain hcp initState),
          runTokens_cons_ok _ _ (by simp [initState, MAX_ARGS])
            (stepToken_gt_save _ (Or.inl rfl) (Or.inl rfl)),
          runTokens_cons_ok _ _ (by simp [initState, MAX_ARGS]) (stepToken_plain hfp _),
          runTokens_nil _ (by simp [initState, MAX_ARGS]),
          finishLine_output _ (Or.inl rfl) (by simp) rfl rfl]
      simp [initState, redirect_events, exec_command_events, redirect_flags, tokGT, tokGTGT]
    · rw [runTokens_cons_ok _ _ (by decide) (stepToken_plain hcp initState),
          runTokens_cons_ok _ _ (by simp [initState, MAX_ARGS])
            (stepToken_gt_save _ (Or.inr rfl) (Or.inl rfl)),
          runTokens_cons_ok _ _ (by simp [initState, MAX_ARGS]) (stepToken_plain hfp _),
          runTokens_nil _ (by simp [initState, MAX_ARGS]),
          finishLine_output _ (Or.inr rfl) (by simp) rfl rfl]
      simp [initState, redirect_events, exec_command_events, redirect_flags, tokGT, tokGTGT]
  · intro content o1 o2
    exact ⟨by simp [fileAfterRun], by simp [fileAfterRun]⟩

theorem c8_open_modes_witness :
    runTokens ["cat", tokGTGT, "log"] initState = ParseOutcome.success
      [Event.parentOpen ("log") OpenMode.writeCreateAppend,
       Event.spawn
         { argv := ["cat"]
         , opens := []
         , stdinFrom := StdSrc.inherited
         , stdoutTo := StdDst.toFile ("log") OpenMode.writeCreateAppend
         , closesPipe := []
         , closesFile := ["log"] },
       Event.parentWait,
       Event.parentCloseFile ("log")] :=
  (c8_open_modes.2.1 ("cat") ("log") (by decide) (by decide)).2.2

end Mysh
